import Mathlib

/-!
A shallow embedding in Lean 4 of the LTE/SWD R1 fleet-manager backend
(`lte_swd/backend/server`): the state store (`internal/store/state_store.go`),
the operator auth (`internal/auth`), the login guard and per-IP rate limiter
(`internal/httpapi/security.go`), and configuration loading
(`internal/config/config.go`), together with theorems settling the spec's
claims about them.

Modelling conventions:
* Go `time.Time` and `time.Duration` are both embedded as `Int` (nanosecond
  ticks); `a.Sub(b) = a - b`, `a.After(b) = a > b`.
* Go `map[string]T` is embedded as an association list `List (String × T)`
  with map semantics (`lookupA` finds the first binding, `insertA` replaces
  it in place or appends, `eraseA` removes every binding of the key).
* `float64` fields (`temperature_c`, coordinates) are carried opaquely by the
  server — it never computes on them — so they are represented by `Int`
  stand-ins; `map[string]interface{}` payloads are represented by
  `List (String × String)`.
* Randomly generated tokens and command ids are passed in as explicit
  arguments (the RNG output).
* File persistence is modelled by a `snapshot : Option PersistedState` field
  of the store: `persistLocked` either succeeds (flag `pOk = true`) and copies
  the in-memory state into the snapshot, or fails, mirroring a disk error.
* Defensive deep copies (`CloneDevice`, `cloneCommand`, `cloneArtifact`) are
  the identity on immutable Lean values, so returned records are the stored
  values themselves.
-/

namespace LteSwd

/-- One second, in nanosecond ticks. -/
def second : Int := 1000000000

/-- One minute, in nanosecond ticks. -/
def minute : Int := 60 * second

/-- Association-list lookup with Go map semantics: first binding wins. -/
def lookupA {α : Type} : List (String × α) → String → Option α
  | [], _ => none
  | (k', v) :: rest, k => if k' = k then some v else lookupA rest k

/-- Association-list insert with Go map semantics: replace the first binding
in place, or append a fresh one. -/
def insertA {α : Type} : List (String × α) → String → α → List (String × α)
  | [], k, v => [(k, v)]
  | (k', v') :: rest, k, v =>
    if k' = k then (k', v) :: rest else (k', v') :: insertA rest k v

/-- Association-list delete with Go map semantics: drop every binding of the
key. -/
def eraseA {α : Type} (m : List (String × α)) (k : String) : List (String × α) :=
  m.filter (fun p => ¬ p.1 = k)

/-- `internal/model.DeviceStatus`: runtime connectivity state. -/
inductive DeviceStatus where
  | online
  | offline
  deriving DecidableEq, Repr

/-- `model.CommandQueued`: backend accepted the command. Command statuses are
strings in the source (`model.CommandStatus`). -/
def CommandQueued : String := "queued"

/-- `model.CommandDispatched`: command was delivered to the device. -/
def CommandDispatched : String := "dispatched"

/-- `model.CommandSuccess`: execution finished successfully. -/
def CommandSuccess : String := "success"

/-- `model.CommandFailed`: execution ended with an error. -/
def CommandFailed : String := "failed"

/-- `model.Telemetry`: periodic device metrics, carried opaquely. -/
structure Telemetry where
  batteryMV : Int
  supplyMV : Int
  temperatureC : Int
  rssiDBM : Int
  networkState : String
  uptimeSec : Nat
  extra : List (String × String)
  deriving DecidableEq, Repr

/-- `model.Location`: last known coordinates, carried opaquely. -/
structure Location where
  lat : Int
  lon : Int
  altM : Int
  accuracyM : Int
  source : String
  deriving DecidableEq, Repr

/-- `model.Device`: metadata and last known state of one device. -/
structure Device where
  deviceID : String
  hwUID : String
  modemIMEI : String
  simICCID : String
  firmwareVersion : String
  deviceToken : String
  registeredAt : Int
  lastSeenAt : Int
  lastHeartbeatAt : Int
  lastTelemetryAt : Int
  lastLocationAt : Int
  lastTelemetry : Option Telemetry
  lastLocation : Option Location
  status : DeviceStatus
  deriving DecidableEq, Repr

/-- `model.TelemetryRecord`: immutable telemetry history point. -/
structure TelemetryRecord where
  deviceID : String
  timestamp : Int
  data : Telemetry
  deriving DecidableEq, Repr

/-- `model.CommandResult`: device execution output; `status` is a free-form
string supplied by the device. -/
structure CommandResult where
  status : String
  message : String
  metrics : List (String × String)
  data : List (String × String)
  deriving DecidableEq, Repr

/-- `model.Command`: a queued SWD action. -/
structure Command where
  commandID : String
  deviceID : String
  type : String
  payload : List Nat
  createdBy : String
  createdAt : Int
  dispatchedAt : Option Int
  completedAt : Option Int
  status : String
  result : Option CommandResult
  deriving DecidableEq, Repr

/-- `model.Artifact`: binary payload for program/copy operations. -/
structure Artifact where
  artifactID : String
  name : String
  contentType : String
  createdBy : String
  createdAt : Int
  payload : List Nat
  payloadSHA256 : String
  deriving DecidableEq, Repr

/-- `model.PersistedState`: the whole R1 server state snapshot. -/
structure PersistedState where
  devices : List (String × Device)
  telemetryByID : List (String × List TelemetryRecord)
  commandsByID : List (String × List Command)
  artifacts : List (String × Artifact)
  deriving DecidableEq, Repr

/-- Errors raised by the state store (`internal/store/errors.go`), plus
`persistFailed` for a snapshot I/O failure wrapped by `persistLocked`. -/
inductive StoreErr where
  | fleetLimitReached
  | deviceExistsWithOtherIdentity
  | deviceNotFound
  | invalidDeviceToken
  | commandNotFound
  | artifactNotFound
  | persistFailed
  deriving DecidableEq, Repr

/-- `store.StateStore`: in-memory state plus the on-disk snapshot image
(`none` models a missing data file). -/
structure StateStore where
  fleetLimit : Int
  state : PersistedState
  snapshot : Option PersistedState
  deriving DecidableEq, Repr

/-- `store.maxTelemetryHistory`. -/
def maxTelemetryHistory : Nat := 500

/-- `firstNonEmpty` from `state_store.go`. -/
def firstNonEmpty (primary secondary : String) : String :=
  if primary ≠ "" then primary else secondary

/-- The common tail of every mutating store operation: mutate the in-memory
state to `st'`, then `persistLocked` — on success (`pOk = true`) the snapshot
becomes the serialized new state and the result is returned; on a disk error
the mutation has already happened in memory and the wrapped error is
returned. -/
def finishMutation {α : Type} (s : StateStore) (st' : PersistedState) (pOk : Bool)
    (result : α) : Except StoreErr α × StateStore :=
  if pOk then (.ok result, { s with state := st', snapshot := some st' })
  else (.error .persistFailed, { s with state := st' })

/-- `StateStore.requireDeviceLocked`: look up the device and check its
token. -/
def requireDeviceLocked (st : PersistedState) (deviceID token : String) :
    Except StoreErr Device :=
  match lookupA st.devices deviceID with
  | none => .error .deviceNotFound
  | some device =>
    if device.deviceToken = token then .ok device else .error .invalidDeviceToken

/-- `StateStore.RegisterDevice`: create or refresh a device record.
`freshToken` is the `util.RandomToken("dev", 16)` output. Returns the device
clone and the `created` flag. -/
def RegisterDevice (s : StateStore) (pOk : Bool)
    (deviceID hwUID modemIMEI simICCID firmwareVersion freshToken : String)
    (now : Int) : Except StoreErr (Device × Bool) × StateStore :=
  match lookupA s.state.devices deviceID with
  | some existing =>
    if (existing.hwUID ≠ "" ∧ hwUID ≠ "" ∧ existing.hwUID ≠ hwUID) ∨
        (existing.modemIMEI ≠ "" ∧ modemIMEI ≠ "" ∧ existing.modemIMEI ≠ modemIMEI) then
      (.error .deviceExistsWithOtherIdentity, s)
    else
      let updated : Device :=
        { existing with
          hwUID := firstNonEmpty existing.hwUID hwUID
          modemIMEI := firstNonEmpty existing.modemIMEI modemIMEI
          simICCID := firstNonEmpty existing.simICCID simICCID
          firmwareVersion := firstNonEmpty firmwareVersion existing.firmwareVersion
          lastSeenAt := now
          lastHeartbeatAt := now
          status := .online }
      let st' := { s.state with devices := insertA s.state.devices deviceID updated }
      finishMutation s st' pOk (updated, false)
  | none =>
    if (s.state.devices.length : Int) ≥ s.fleetLimit then
      (.error .fleetLimitReached, s)
    else
      let created : Device :=
        { deviceID := deviceID
          hwUID := hwUID
          modemIMEI := modemIMEI
          simICCID := simICCID
          firmwareVersion := firmwareVersion
          deviceToken := freshToken
          registeredAt := now
          lastSeenAt := now
          lastHeartbeatAt := now
          lastTelemetryAt := 0
          lastLocationAt := 0
          lastTelemetry := none
          lastLocation := none
          status := .online }
      let st' := { s.state with devices := insertA s.state.devices deviceID created }
      finishMutation s st' pOk (created, true)

/-- `StateStore.ValidateDeviceToken`. -/
def ValidateDeviceToken (s : StateStore) (pOk : Bool) (deviceID deviceToken : String)
    (now : Int) : Except StoreErr Device × StateStore :=
  match lookupA s.state.devices deviceID with
  | none => (.error .deviceNotFound, s)
  | some device =>
    if device.deviceToken ≠ deviceToken then (.error .invalidDeviceToken, s)
    else
      let device' := { device with lastSeenAt := now, status := .online }
      let st' := { s.state with devices := insertA s.state.devices deviceID device' }
      finishMutation s st' pOk device'

/-- `StateStore.AddHeartbeat`. -/
def AddHeartbeat (s : StateStore) (pOk : Bool) (deviceID deviceToken : String)
    (now : Int) : Except StoreErr Unit × StateStore :=
  match requireDeviceLocked s.state deviceID deviceToken with
  | .error e => (.error e, s)
  | .ok device =>
    let device' := { device with lastSeenAt := now, lastHeartbeatAt := now, status := .online }
    let st' := { s.state with devices := insertA s.state.devices deviceID device' }
    finishMutation s st' pOk ()

/-- `StateStore.AddTelemetry`: append to the capped per-device history and
mirror into the device record. -/
def AddTelemetry (s : StateStore) (pOk : Bool) (deviceID deviceToken : String)
    (data : Telemetry) (now : Int) : Except StoreErr Unit × StateStore :=
  match requireDeviceLocked s.state deviceID deviceToken with
  | .error e => (.error e, s)
  | .ok device =>
    let record : TelemetryRecord := { deviceID := deviceID, timestamp := now, data := data }
    let list0 := (lookupA s.state.telemetryByID deviceID).getD [] ++ [record]
    let list1 := if list0.length > maxTelemetryHistory then
        list0.drop (list0.length - maxTelemetryHistory) else list0
    let device' := { device with
        lastTelemetry := some data
        lastTelemetryAt := now
        lastSeenAt := now
        status := .online }
    let st' := { s.state with
        devices := insertA s.state.devices deviceID device'
        telemetryByID := insertA s.state.telemetryByID deviceID list1 }
    finishMutation s st' pOk ()

/-- `StateStore.AddLocation`. -/
def AddLocation (s : StateStore) (pOk : Bool) (deviceID deviceToken : String)
    (location : Location) (now : Int) : Except StoreErr Unit × StateStore :=
  match requireDeviceLocked s.state deviceID deviceToken with
  | .error e => (.error e, s)
  | .ok device =>
    let device' := { device with
        lastLocation := some location
        lastLocationAt := now
        lastSeenAt := now
        status := .online }
    let st' := { s.state with devices := insertA s.state.devices deviceID device' }
    finishMutation s st' pOk ()

/-- Online/offline refresh performed by `ListDevices` and `GetDevice`:
offline exactly when `now.Sub(lastSeenAt) > offlineAfter`. -/
def refreshStatus (device : Device) (now : Int) (offlineAfter : Int) : Device :=
  if now - device.lastSeenAt > offlineAfter then { device with status := .offline }
  else { device with status := .online }

/-- Insert one device into a list kept ascending by `deviceID` (the
`sort.Slice` comparator of `ListDevices`). -/
def insertSorted (d : Device) : List Device → List Device
  | [] => [d]
  | x :: xs => if d.deviceID < x.deviceID then d :: x :: xs else x :: insertSorted d xs

/-- Sort devices ascending by `deviceID` (the `sort.Slice` call of
`ListDevices`). -/
def sortDevices : List Device → List Device
  | [] => []
  | x :: xs => insertSorted x (sortDevices xs)

/-- `StateStore.ListDevices`: refresh every device's status, persist, and
return the clones sorted by `device_id` ascending. -/
def ListDevices (s : StateStore) (pOk : Bool) (now : Int) (offlineAfter : Int) :
    Except StoreErr (List Device) × StateStore :=
  let devices' := s.state.devices.map (fun p => (p.1, refreshStatus p.2 now offlineAfter))
  let out := sortDevices (devices'.map (fun p => p.2))
  let st' := { s.state with devices := devices' }
  finishMutation s st' pOk out

/-- `StateStore.GetDevice`: refresh one device's status, persist, and return
the clone. -/
def GetDevice (s : StateStore) (pOk : Bool) (deviceID : String) (now : Int)
    (offlineAfter : Int) : Except StoreErr Device × StateStore :=
  match lookupA s.state.devices deviceID with
  | none => (.error .deviceNotFound, s)
  | some device =>
    let device' := refreshStatus device now offlineAfter
    let st' := { s.state with devices := insertA s.state.devices deviceID device' }
    finishMutation s st' pOk device'

/-- `StateStore.ListTelemetry` (read-only, no persist). -/
def ListTelemetry (s : StateStore) (deviceID : String) (limit : Int) :
    Except StoreErr (List TelemetryRecord) :=
  match lookupA s.state.devices deviceID with
  | none => .error .deviceNotFound
  | some _ =>
    let items := (lookupA s.state.telemetryByID deviceID).getD []
    if limit ≤ 0 ∨ limit ≥ (items.length : Int) then .ok items
    else .ok (items.drop (items.length - limit.toNat))

/-- `StateStore.AddCommand`: push a new command onto the device queue.
`freshID` is the `util.RandomToken("cmd", 12)` output. -/
def AddCommand (s : StateStore) (pOk : Bool) (deviceID commandType : String)
    (payload : List Nat) (createdBy freshID : String) (now : Int) :
    Except StoreErr Command × StateStore :=
  match lookupA s.state.devices deviceID with
  | none => (.error .deviceNotFound, s)
  | some _ =>
    let command : Command :=
      { commandID := freshID
        deviceID := deviceID
        type := commandType
        payload := payload
        createdBy := createdBy
        createdAt := now
        dispatchedAt := none
        completedAt := none
        status := CommandQueued
        result := none }
    let queue := (lookupA s.state.commandsByID deviceID).getD [] ++ [command]
    let st' := { s.state with commandsByID := insertA s.state.commandsByID deviceID queue }
    finishMutation s st' pOk command

/-- `StateStore.ListCommands` (read-only, no persist). -/
def ListCommands (s : StateStore) (deviceID : String) (limit : Int) :
    Except StoreErr (List Command) :=
  match lookupA s.state.devices deviceID with
  | none => .error .deviceNotFound
  | some _ =>
    let items := (lookupA s.state.commandsByID deviceID).getD []
    if limit > 0 ∧ (items.length : Int) > limit then
      .ok (items.drop (items.length - limit.toNat))
    else .ok items

/-- The per-entry mutation of `PullNextCommand`: mark the entry dispatched
and stamp `dispatched_at = now`. -/
def dispatchedCommand (item : Command) (now : Int) : Command :=
  { item with status := CommandDispatched, dispatchedAt := some now }

/-- The scan of `PullNextCommand`: dispatch the first `queued` entry of the
queue, returning the dispatched command and the updated queue; `none` when no
entry is queued. -/
def pullNextAux (now : Int) : List Command → Option (Command × List Command)
  | [] => none
  | item :: rest =>
    if item.status = CommandQueued then
      let item' := dispatchedCommand item now
      some (item', item' :: rest)
    else
      match pullNextAux now rest with
      | some (c, rest') => some (c, item :: rest')
      | none => none

/-- `StateStore.PullNextCommand`: dispatch the first queued command for the
device; `ok none` when the queue holds no queued entry (liveness is updated
either way). -/
def PullNextCommand (s : StateStore) (pOk : Bool) (deviceID deviceToken : String)
    (now : Int) : Except StoreErr (Option Command) × StateStore :=
  match requireDeviceLocked s.state deviceID deviceToken with
  | .error e => (.error e, s)
  | .ok device =>
    let device' := { device with lastSeenAt := now, status := .online }
    match pullNextAux now ((lookupA s.state.commandsByID deviceID).getD []) with
    | some (c, queue') =>
      let st' := { s.state with
          devices := insertA s.state.devices deviceID device'
          commandsByID := insertA s.state.commandsByID deviceID queue' }
      finishMutation s st' pOk (some c)
    | none =>
      let st' := { s.state with devices := insertA s.state.devices deviceID device' }
      finishMutation s st' pOk (none : Option Command)

/-- The per-entry mutation of `CompleteCommand`: store the
(empty-status-normalized) result, stamp `completed_at`, and set the final
status — `success` when the result status is `success`, `failed` otherwise.
The command's previous status is not consulted. -/
def completedCommand (item : Command) (result : CommandResult) (now : Int) : Command :=
  let result' := if result.status = "" then { result with status := CommandFailed }
    else result
  { item with
    completedAt := some now
    result := some result'
    status := if result'.status = CommandSuccess then CommandSuccess else CommandFailed }

/-- The scan of `CompleteCommand`: find the command with the given id and
finalize it. -/
def completeAux (commandID : String) (result : CommandResult) (now : Int) :
    List Command → Option (Command × List Command)
  | [] => none
  | item :: rest =>
    if item.commandID = commandID then
      let item' := completedCommand item result now
      some (item', item' :: rest)
    else
      match completeAux commandID result now rest with
      | some (c, rest') => some (c, item :: rest')
      | none => none

/-- `StateStore.CompleteCommand`: store the final result for one command of
the device; `command_not_found` when no queue entry has the id. -/
def CompleteCommand (s : StateStore) (pOk : Bool) (deviceID deviceToken commandID : String)
    (result : CommandResult) (now : Int) : Except StoreErr Command × StateStore :=
  match requireDeviceLocked s.state deviceID deviceToken with
  | .error e => (.error e, s)
  | .ok device =>
    match completeAux commandID result now ((lookupA s.state.commandsByID deviceID).getD []) with
    | none => (.error .commandNotFound, s)
    | some (c, queue') =>
      let device' := { device with lastSeenAt := now, status := .online }
      let st' := { s.state with
          devices := insertA s.state.devices deviceID device'
          commandsByID := insertA s.state.commandsByID deviceID queue' }
      finishMutation s st' pOk c

/-- `StateStore.DeviceCount`. -/
def DeviceCount (s : StateStore) : Nat := s.state.devices.length

/-- Truncate to a 32-bit word (Go `uint32` arithmetic wraps). -/
def w32 (n : Nat) : Nat := n % 4294967296

/-- 32-bit right rotation. -/
def rotr32 (x n : Nat) : Nat := w32 ((x >>> n) ||| (x <<< (32 - n)))

/-- SHA-256 `Ch` function (FIPS 180-4, as implemented by Go
`crypto/sha256`). -/
def shaCh (x y z : Nat) : Nat := (x &&& y) ^^^ ((x ^^^ 4294967295) &&& z)

/-- SHA-256 `Maj` function. -/
def shaMaj (x y z : Nat) : Nat := (x &&& y) ^^^ (x &&& z) ^^^ (y &&& z)

/-- SHA-256 `Σ0`. -/
def shaBigSigma0 (x : Nat) : Nat := rotr32 x 2 ^^^ rotr32 x 13 ^^^ rotr32 x 22

/-- SHA-256 `Σ1`. -/
def shaBigSigma1 (x : Nat) : Nat := rotr32 x 6 ^^^ rotr32 x 11 ^^^ rotr32 x 25

/-- SHA-256 `σ0`. -/
def shaSmallSigma0 (x : Nat) : Nat := rotr32 x 7 ^^^ rotr32 x 18 ^^^ (x >>> 3)

/-- SHA-256 `σ1`. -/
def shaSmallSigma1 (x : Nat) : Nat := rotr32 x 17 ^^^ rotr32 x 19 ^^^ (x >>> 10)

/-- SHA-256 round constants K₀..K₆₃. -/
def shaK : List Nat :=
  [1116352408, 1899447441, 3049323471, 3921009573, 961987163, 1508970993,
   2453635748, 2870763221, 3624381080, 310598401, 607225278, 1426881987,
   1925078388, 2162078206, 2614888103, 3248222580, 3835390401, 4022224774,
   264347078, 604807628, 770255983, 1249150122, 1555081692, 1996064986,
   2554220882, 2821834349, 2952996808, 3210313671, 3336571891, 3584528711,
   113926993, 338241895, 666307205, 773529912, 1294757372, 1396182291,
   1695183700, 1986661051, 2177026350, 2456956037, 2730485921, 2820302411,
   3259730800, 3345764771, 3516065817, 3600352804, 4094571909, 275423344,
   430227734, 506948616, 659060556, 883997877, 958139571, 1322822218,
   1537002063, 1747873779, 1955562222, 2024104815, 2227730452, 2361852424,
   2428436474, 2756734187, 3204031479, 3329325298]

/-- SHA-256 initial hash value H⁽⁰⁾. -/
def shaH0 : List Nat :=
  [1779033703, 3144134277, 1013904242, 2773480762,
   1359893119, 2600822924, 528734635, 1541459225]

/-- Group bytes into big-endian 32-bit words. -/
def toWords : List Nat → List Nat
  | b0 :: b1 :: b2 :: b3 :: rest =>
    (b0 * 16777216 + b1 * 65536 + b2 * 256 + b3) :: toWords rest
  | _ => []

/-- Extend the 16-word block schedule by `n` further words (to W₀..W₆₃). -/
def extendW (ws : List Nat) : Nat → List Nat
  | 0 => ws
  | n + 1 =>
    let t := ws.length
    let next := w32 (shaSmallSigma1 (ws.getD (t - 2) 0) + ws.getD (t - 7) 0 +
      shaSmallSigma0 (ws.getD (t - 15) 0) + ws.getD (t - 16) 0)
    extendW (ws ++ [next]) n

/-- One SHA-256 compression round on the working variables `[a..h]`. -/
def shaRound (st : List Nat) (kw : Nat × Nat) : List Nat :=
  match st with
  | [a, b, c, d, e, f, g, h] =>
    let t1 := w32 (h + shaBigSigma1 e + shaCh e f g + kw.1 + kw.2)
    let t2 := w32 (shaBigSigma0 a + shaMaj a b c)
    [w32 (t1 + t2), a, b, c, w32 (d + t1), e, f, g]
  | other => other

/-- Compress one padded 64-byte block into the running hash value. -/
def shaCompress (h : List Nat) (block : List Nat) : List Nat :=
  let ws := extendW (toWords block) 48
  let final := (shaK.zip ws).foldl shaRound h
  (h.zip final).map (fun p => w32 (p.1 + p.2))

/-- Big-endian byte serialization of `v` into `n` bytes. -/
def beBytes : Nat → Nat → List Nat
  | 0, _ => []
  | n + 1, v => ((v >>> (8 * n)) % 256) :: beBytes n v

/-- SHA-256 message padding: `128`, zeros to 56 mod 64, then the 64-bit
big-endian bit length. -/
def sha256Pad (msg : List Nat) : List Nat :=
  let L := msg.length
  msg ++ [128] ++ List.replicate ((119 - L % 64) % 64) 0 ++ beBytes 8 (L * 8)

/-- Split a byte list (whose length is a multiple of 64) into 64-byte
blocks. -/
def toBlocksAux : Nat → List Nat → List (List Nat)
  | 0, _ => []
  | n + 1, bs => bs.take 64 :: toBlocksAux n (bs.drop 64)

/-- All 64-byte blocks of a padded message. -/
def toBlocks (bs : List Nat) : List (List Nat) := toBlocksAux (bs.length / 64) bs

/-- `crypto/sha256.Sum256`: the 32-byte SHA-256 digest of a byte list. -/
def sha256 (msg : List Nat) : List Nat :=
  (((toBlocks (sha256Pad msg)).foldl shaCompress shaH0).map (beBytes 4)).flatten

/-- One lowercase hex digit. -/
def hexDigit (n : Nat) : Char :=
  if n < 10 then Char.ofNat (48 + n) else Char.ofNat (87 + n)

/-- `encoding/hex.EncodeToString`: lowercase hex of a byte list. -/
def hexEncode (bs : List Nat) : String :=
  String.mk ((bs.map (fun b => [hexDigit (b / 16), hexDigit (b % 16)])).flatten)

/-- The record built by `SaveArtifact`: content-addressed id
`"art_" + first 24 hex digits of sha256(payload)` and the full 64-hex digest
alongside the payload bytes. -/
def artifactFor (name contentType : String) (payload : List Nat)
    (createdBy : String) (now : Int) : Artifact :=
  { artifactID := "art_" ++ (hexEncode (sha256 payload)).take 24
    name := name
    contentType := contentType
    createdBy := createdBy
    createdAt := now
    payload := payload
    payloadSHA256 := hexEncode (sha256 payload) }

/-- The in-memory state after `SaveArtifact` inserts a fresh artifact. -/
def savedArtifactState (s : StateStore) (artifact : Artifact) : PersistedState :=
  { s.state with artifacts := insertA s.state.artifacts artifact.artifactID artifact }

/-- `StateStore.SaveArtifact`: content-addressed insert with deduplication —
identical bytes map to the already-stored record and nothing is inserted or
persisted. -/
def SaveArtifact (s : StateStore) (pOk : Bool) (name contentType : String)
    (payload : List Nat) (createdBy : String) (now : Int) :
    Except StoreErr Artifact × StateStore :=
  let artifact := artifactFor name contentType payload createdBy now
  match lookupA s.state.artifacts artifact.artifactID with
  | some existing => (.ok existing, s)
  | none => finishMutation s (savedArtifactState s artifact) pOk artifact

/-- `StateStore.GetArtifact` (read-only, no persist). -/
def GetArtifact (s : StateStore) (artifactID : String) : Except StoreErr Artifact :=
  match lookupA s.state.artifacts artifactID with
  | none => .error .artifactNotFound
  | some artifact => .ok artifact


example : hexEncode (sha256 []) =
  "e3b0c44298fc1c149afbf4c8996fb92427ae41e4649b934ca495991b7852b855" := by decide

example : hexEncode (sha256 [97, 98, 99]) =
  "ba7816bf8f01cfea414140de5dae2223b00361a396177a9cb410ff61f20015ad" := by decide

example : hexEncode (sha256 [0]) =
  "6e340b9cffb37a989ca544e6bb780a2c78901d3fb33738768511a30617afa01d" := by decide

/-- Errors raised by operator auth (`internal/auth`). -/
inductive AuthErr where
  | invalidPassword
  | invalidToken
  deriving DecidableEq, Repr

/-- `auth.OperatorAuth`: short-lived operator sessions. -/
structure OperatorAuth where
  password : String
  ttl : Int
  tokens : List (String × Int)
  deriving DecidableEq, Repr

/-- `auth.NewOperatorAuth`. -/
def NewOperatorAuth (password : String) (ttl : Int) : OperatorAuth :=
  { password := password, ttl := ttl, tokens := [] }

/-- `OperatorAuth.cleanupLocked`: evict every expired session. -/
def authCleanup (tokens : List (String × Int)) (now : Int) : List (String × Int) :=
  tokens.filter (fun p => ¬ now > p.2)

/-- `OperatorAuth.Login`: constant-time password check; on match record the
fresh token with `expires_at = now + ttl` and evict expired entries.
`freshToken` is the `util.RandomToken("op", 16)` output. -/
def Login (a : OperatorAuth) (password freshToken : String) (now : Int) :
    Except AuthErr (String × Int) × OperatorAuth :=
  if password = a.password then
    let expiresAt := now + a.ttl
    (.ok (freshToken, expiresAt),
      { a with tokens := authCleanup (insertA a.tokens freshToken expiresAt) now })
  else (.error .invalidPassword, a)

/-- `OperatorAuth.Validate`: fail and delete the entry when the token is
unknown or `now` is after its expiry. -/
def Validate (a : OperatorAuth) (token : String) (now : Int) :
    Except AuthErr Unit × OperatorAuth :=
  match lookupA a.tokens token with
  | none => (.error .invalidToken, { a with tokens := eraseA a.tokens token })
  | some expiresAt =>
    if now > expiresAt then (.error .invalidToken, { a with tokens := eraseA a.tokens token })
    else (.ok (), a)

/-- `httpapi.rateBucket`: one per-IP fixed window. -/
structure RateBucket where
  windowStart : Int
  count : Int
  lastSeen : Int
  deriving DecidableEq, Repr

/-- `httpapi.ipRateLimiter`. -/
structure IPRateLimiter where
  limit : Int
  window : Int
  entries : List (String × RateBucket)
  deriving DecidableEq, Repr

/-- `httpapi.newIPRateLimiter`. -/
def newIPRateLimiter (limit : Int) (window : Int) : IPRateLimiter :=
  { limit := if limit ≤ 0 then 1 else limit
    window := if window ≤ 0 then minute else window
    entries := [] }

/-- `ipRateLimiter.cleanupLocked`: above 128 entries, evict entries idle
longer than three windows. -/
def rlCleanup (l : IPRateLimiter) (now : Int) : IPRateLimiter :=
  if l.entries.length ≤ 128 then l
  else { l with entries := l.entries.filter (fun p => ¬ now - p.2.lastSeen > l.window * 3) }

/-- `ipRateLimiter.allow`: fixed one-window counter per key. -/
def rlAllow (l : IPRateLimiter) (key : String) (now : Int) : Bool × IPRateLimiter :=
  match lookupA l.entries key with
  | none =>
    let fresh : RateBucket := { windowStart := now, count := 1, lastSeen := now }
    let l' := { l with entries := insertA l.entries key fresh }
    (true, rlCleanup l' now)
  | some entry =>
    let entry1 := if now - entry.windowStart ≥ l.window then
        { entry with windowStart := now, count := 0 } else entry
    let entry2 := { entry1 with lastSeen := now }
    if entry2.count ≥ l.limit then
      let l' := { l with entries := insertA l.entries key entry2 }
      (false, rlCleanup l' now)
    else
      let l' := { l with entries := insertA l.entries key ({ entry2 with count := entry2.count + 1 }) }
      (true, rlCleanup l' now)

/-- `httpapi.loginGuardRecord`. -/
structure LoginGuardRecord where
  consecutive : Int
  blockedTill : Int
  lastSeen : Int
  deriving DecidableEq, Repr

/-- `httpapi.loginGuard`. -/
structure LoginGuard where
  burst : Int
  blockFor : Int
  perIPRate : IPRateLimiter
  perIPStatus : List (String × LoginGuardRecord)
  deriving DecidableEq, Repr

/-- `httpapi.newLoginGuard`: the block duration is fixed at 60 seconds. -/
def newLoginGuard (ratePerMinute burst : Int) : LoginGuard :=
  { burst := if burst ≤ 0 then 5 else burst
    blockFor := 60 * second
    perIPRate := newIPRateLimiter ratePerMinute minute
    perIPStatus := [] }

/-- `loginGuard.cleanupLocked`: above 128 records, evict records idle longer
than two hours. -/
def lgCleanup (g : LoginGuard) (now : Int) : LoginGuard :=
  if g.perIPStatus.length ≤ 128 then g
  else { g with perIPStatus :=
    g.perIPStatus.filter (fun p => ¬ now - p.2.lastSeen > 2 * (3600 * second)) }

/-- `loginGuard.allow`: deny with the remaining block duration while the IP
is blocked; otherwise consult the per-IP login rate limiter. -/
def lgAllow (g : LoginGuard) (ip : String) (now : Int) :
    (Bool × Int) × LoginGuard :=
  match lookupA g.perIPStatus ip with
  | some status =>
    if now < status.blockedTill then ((false, status.blockedTill - now), g)
    else
      let (ok, rl') := rlAllow g.perIPRate ip now
      if ok then ((true, 0), lgCleanup { g with perIPRate := rl' } now)
      else ((false, minute), { g with perIPRate := rl' })
  | none =>
    let (ok, rl') := rlAllow g.perIPRate ip now
    if ok then ((true, 0), lgCleanup { g with perIPRate := rl' } now)
    else ((false, minute), { g with perIPRate := rl' })

/-- `loginGuard.onFailure`: bump the consecutive counter; at `burst` set
`blocked_till = now + blockFor` and reset the counter. -/
def lgOnFailure (g : LoginGuard) (ip : String) (now : Int) : LoginGuard :=
  let status := (lookupA g.perIPStatus ip).getD
    { consecutive := 0, blockedTill := 0, lastSeen := 0 }
  let status1 := { status with lastSeen := now, consecutive := status.consecutive + 1 }
  let status2 := if status1.consecutive ≥ g.burst then
      { status1 with blockedTill := now + g.blockFor, consecutive := 0 } else status1
  lgCleanup { g with perIPStatus := insertA g.perIPStatus ip status2 } now

/-- `loginGuard.onSuccess`: clear the consecutive counter when a record
exists. -/
def lgOnSuccess (g : LoginGuard) (ip : String) : LoginGuard :=
  match lookupA g.perIPStatus ip with
  | none => g
  | some status =>
    { g with perIPStatus := insertA g.perIPStatus ip ({ status with consecutive := 0 }) }

/-- The process environment: `envGet k = ""` models an unset variable, as
`os.Getenv` reports. -/
def Env := String → String

/-- `config.getEnv`. -/
def getEnv (env : Env) (key def_ : String) : String :=
  if env key = "" then def_ else env key

/-- Decimal digit values of a character list; `none` when any character is
not a digit or the list is empty. -/
def digitsVal : List Char → Option Nat
  | [] => none
  | [c] => if c.isDigit then some (c.toNat - 48) else none
  | c :: rest =>
    if c.isDigit then
      match digitsVal rest with
      | some n => some ((c.toNat - 48) * 10 ^ rest.length + n)
      | none => none
    else none

/-- Modelled from the Go standard library: `strconv.Atoi` — an optional
sign, then decimal digits; syntax or 64-bit signed overflow gives an
error (`none`). -/
def atoi (s : String) : Option Int :=
  let signed : Option Int :=
    match s.data with
    | '+' :: rest => (digitsVal rest).map (fun n => (n : Int))
    | '-' :: rest => (digitsVal rest).map (fun n => -(n : Int))
    | other => (digitsVal other).map (fun n => (n : Int))
  match signed with
  | none => none
  | some n => if n < -(2 ^ 63) ∨ n ≥ 2 ^ 63 then none else some n

/-- `config.getEnvInt`: unset or unparsable values fall back to the
default. -/
def getEnvInt (env : Env) (key : String) (def_ : Int) : Int :=
  if env key = "" then def_
  else match atoi (env key) with
  | none => def_
  | some n => n

/-- Duration unit suffixes accepted by Go `time.ParseDuration`, with their
length in nanoseconds. -/
def durationUnits : List (String × Nat) :=
  [("ns", 1), ("us", 1000), ("µs", 1000), ("μs", 1000),
   ("ms", 1000000), ("s", 1000000000), ("m", 60000000000), ("h", 3600000000000)]

/-- Split a leading run of decimal digits from a character list. -/
def spanDigits : List Char → List Char × List Char
  | [] => ([], [])
  | c :: rest =>
    if c.isDigit then
      let (ds, rest') := spanDigits rest
      (c :: ds, rest')
    else ([], c :: rest)

/-- Numeric value of a digit run (0 for the empty run). -/
def digitsNat (ds : List Char) : Nat :=
  ds.foldl (fun acc c => acc * 10 + (c.toNat - 48)) 0

/-- Split the leading unit name (everything up to the next digit or dot)
from a character list. -/
def spanUnit : List Char → List Char × List Char
  | [] => ([], [])
  | c :: rest =>
    if c.isDigit ∨ c = '.' then ([], c :: rest)
    else
      let (us, rest') := spanUnit rest
      (c :: us, rest')

/-- One `number[.fraction]unit` component and the loop of Go
`time.ParseDuration`, fuelled by the character count (every component
consumes at least one character). Fractions are accumulated with exact
integer arithmetic where Go uses floating point; the difference is below one
nanosecond. -/
def parseDurComponents : Nat → List Char → Nat → Option Nat
  | _, [], acc => some acc
  | 0, _ :: _, _ => none
  | fuel + 1, cs, acc =>
    let (intDigits, rest1) := spanDigits cs
    let (fracDigits, rest2) :=
      match rest1 with
      | '.' :: restDot => spanDigits restDot
      | other => ([], other)
    let hasDot := match rest1 with
      | '.' :: _ => true
      | _ => false
    if intDigits.isEmpty ∧ fracDigits.isEmpty then none
    else
      let (unitChars, rest3) := spanUnit (if hasDot then rest2 else rest1)
      match lookupA durationUnits (String.mk unitChars) with
      | none => none
      | some unit =>
        let v := digitsNat intDigits * unit +
          digitsNat fracDigits * unit / 10 ^ fracDigits.length
        parseDurComponents fuel rest3 (acc + v)

/-- Modelled from the Go standard library: `time.ParseDuration` — an
optional sign, the string `"0"`, or a nonempty sequence of
`number[.fraction]unit` components. -/
def parseDuration (s : String) : Option Int :=
  let (neg, cs) : Bool × List Char :=
    match s.data with
    | '-' :: rest => (true, rest)
    | '+' :: rest => (false, rest)
    | other => (false, other)
  if cs = ['0'] then some 0
  else if cs.isEmpty then none
  else match parseDurComponents cs.length cs 0 with
  | none => none
  | some n => if neg then some (-(n : Int)) else some (n : Int)

/-- `config.getEnvDuration`: unset or unparsable values fall back to the
default. -/
def getEnvDuration (env : Env) (key : String) (def_ : Int) : Int :=
  if env key = "" then def_
  else match parseDuration (env key) with
  | none => def_
  | some d => d

/-- The recognized boolean literals of `config.getEnvBool`. -/
def parseGoBool (s : String) : Option Bool :=
  if s = "1" ∨ s = "true" ∨ s = "TRUE" ∨ s = "yes" ∨ s = "YES" ∨ s = "on" ∨ s = "ON" then
    some true
  else if s = "0" ∨ s = "false" ∨ s = "FALSE" ∨ s = "no" ∨ s = "NO" ∨ s = "off" ∨ s = "OFF" then
    some false
  else none

/-- `config.getEnvBool`: unset or unrecognized values fall back to the
default. -/
def getEnvBool (env : Env) (key : String) (def_ : Bool) : Bool :=
  if env key = "" then def_
  else match parseGoBool (env key) with
  | none => def_
  | some b => b

/-- Modelled from the Go standard library: `strings.TrimSpace` — strip
leading and trailing whitespace. -/
def trimSpace (s : String) : String :=
  String.mk (((s.data.dropWhile Char.isWhitespace).reverse.dropWhile Char.isWhitespace).reverse)

/-- `config.Config`. -/
structure Config where
  httpAddr : String
  httpsAddr : String
  tlsCertFile : String
  tlsKeyFile : String
  operatorPassword : String
  deviceEnrollKey : String
  dataFile : String
  staticDir : String
  fleetLimit : Int
  operatorTokenTTL : Int
  deviceOfflineAfter : Int
  maxJSONBytes : Int
  maxArtifactBytes : Int
  apiRatePerMinute : Int
  loginRatePerMinute : Int
  loginBurst : Int
  trustProxyHeaders : Bool
  deriving DecidableEq, Repr

/-- The configuration resolved from the environment before validation (the
struct literal at the top of `config.Load`). -/
def resolveConfig (env : Env) : Config :=
  { httpAddr := getEnv env "HTTP_ADDR" ":8080"
    httpsAddr := getEnv env "HTTPS_ADDR" ""
    tlsCertFile := getEnv env "TLS_CERT_FILE" ""
    tlsKeyFile := getEnv env "TLS_KEY_FILE" ""
    operatorPassword := trimSpace (getEnv env "OPERATOR_PASSWORD" "lte_swd_admin")
    deviceEnrollKey := trimSpace (getEnv env "DEVICE_ENROLL_KEY" "r1-enroll-key")
    dataFile := getEnv env "DATA_FILE" "data/state.json"
    staticDir := getEnv env "STATIC_DIR" "../../web/panel"
    fleetLimit := getEnvInt env "FLEET_LIMIT" 10
    operatorTokenTTL := getEnvDuration env "OPERATOR_TOKEN_TTL" (12 * 3600 * second)
    deviceOfflineAfter := getEnvDuration env "DEVICE_OFFLINE_AFTER" (90 * second)
    maxJSONBytes := getEnvInt env "MAX_JSON_BYTES" (64 * 1024)
    maxArtifactBytes := getEnvInt env "MAX_ARTIFACT_BYTES" (12 * 1024 * 1024)
    apiRatePerMinute := getEnvInt env "API_RATE_PER_MINUTE" 180
    loginRatePerMinute := getEnvInt env "LOGIN_RATE_PER_MINUTE" 20
    loginBurst := getEnvInt env "LOGIN_BURST" 5
    trustProxyHeaders := getEnvBool env "TRUST_PROXY_HEADERS" false }

/-- The validation cascade at the bottom of `config.Load`. -/
def validateConfig (cfg : Config) : Except String Config :=
  if cfg.fleetLimit ≤ 0 then .error "fleet limit must be positive"
  else if cfg.operatorPassword = "" then .error "operator password must not be empty"
  else if cfg.deviceEnrollKey = "" then .error "device enroll key must not be empty"
  else if cfg.maxJSONBytes < 1024 then .error "max json bytes too small"
  else if cfg.maxArtifactBytes < cfg.maxJSONBytes then
    .error "max artifact bytes must be >= max json bytes"
  else if cfg.apiRatePerMinute ≤ 0 ∨ cfg.loginRatePerMinute ≤ 0 ∨ cfg.loginBurst ≤ 0 then
    .error "rate limits must be positive"
  else if (cfg.httpsAddr ≠ "" ∨ cfg.tlsCertFile ≠ "" ∨ cfg.tlsKeyFile ≠ "") ∧
      (cfg.httpsAddr = "" ∨ cfg.tlsCertFile = "" ∨ cfg.tlsKeyFile = "") then
    .error "https requires HTTPS_ADDR, TLS_CERT_FILE and TLS_KEY_FILE together"
  else .ok cfg

/-- `config.Load`: resolve the configuration from the environment (unparsable
values already replaced by defaults), then validate. -/
def Load (env : Env) : Except String Config :=
  validateConfig (resolveConfig env)

/-- The snapshot file holds exactly the current in-memory state. -/
def snapshotCurrent (s : StateStore) : Prop := s.snapshot = some s.state

/-- A concrete registered device, for witness statements. -/
def testDevice : Device :=
  { deviceID := "d1"
    hwUID := "u1"
    modemIMEI := "i1"
    simICCID := "s1"
    firmwareVersion := "r1"
    deviceToken := "dev_t1"
    registeredAt := 0
    lastSeenAt := 0
    lastHeartbeatAt := 0
    lastTelemetryAt := 0
    lastLocationAt := 0
    lastTelemetry := none
    lastLocation := none
    status := .online }

/-- A concrete queued command of `testDevice`, for witness statements. -/
def testCommand : Command :=
  { commandID := "cmd_1"
    deviceID := "d1"
    type := "swd_reset"
    payload := []
    createdBy := "operator"
    createdAt := 0
    dispatchedAt := none
    completedAt := none
    status := CommandQueued
    result := none }

/-- A concrete persisted state holding `testDevice` and its queue, for
witness statements. -/
def testState : PersistedState :=
  { devices := [("d1", testDevice)]
    telemetryByID := []
    commandsByID := [("d1", [testCommand])]
    artifacts := [] }

/-- A concrete store at its fleet limit of one device, with a current
snapshot, for witness statements. -/
def testStore : StateStore :=
  { fleetLimit := 1, state := testState, snapshot := some testState }

/-- The device record produced by an accepted re-registration of
`testDevice` at tick 5, for witness statements. -/
def testDeviceRefreshed : Device :=
  { testDevice with
    firmwareVersion := "r1"
    lastSeenAt := 5
    lastHeartbeatAt := 5
    status := .online }

/-- A concrete successful command result, for witness statements. -/
def testResult : CommandResult :=
  { status := "success", message := "ok", metrics := [], data := [] }

/-- A concrete persisted state holding `testDevice` with an empty command
queue, for witness statements. -/
def testStateNoQueue : PersistedState :=
  { devices := [("d1", testDevice)]
    telemetryByID := []
    commandsByID := []
    artifacts := [] }

/-- A concrete store whose only device has no queued commands, for witness
statements. -/
def testStoreNoQueue : StateStore :=
  { fleetLimit := 1, state := testStateNoQueue, snapshot := some testStateNoQueue }

/-- A concrete operator-auth state with one session expiring at tick 5, for
witness statements. -/
def testAuth : OperatorAuth :=
  { password := "lte_swd_admin", ttl := 1000, tokens := [("op_t", 5)] }

/-- A concrete login-guard state with one failure recorded and a block
running until tick 100, for witness statements. -/
def testGuard : LoginGuard :=
  { burst := 2
    blockFor := 60 * second
    perIPRate := newIPRateLimiter 20 minute
    perIPStatus := [("1.2.3.4", { consecutive := 1, blockedTill := 100, lastSeen := 0 })] }

/-- A concrete login-guard state far from its burst threshold, for witness
statements. -/
def testGuardFresh : LoginGuard :=
  { burst := 5
    blockFor := 60 * second
    perIPRate := newIPRateLimiter 20 minute
    perIPStatus := [("1.2.3.4", { consecutive := 0, blockedTill := 0, lastSeen := 0 })] }

/-- A concrete environment with unparsable numeric, duration, and boolean
options, for witness statements. -/
def testEnv : Env := fun k =>
  if k = "FLEET_LIMIT" then "zzz"
  else if k = "OPERATOR_TOKEN_TTL" then "soon"
  else if k = "TRUST_PROXY_HEADERS" then "maybe"
  else ""

/-- A concrete environment whose fleet limit parses but violates validation,
for witness statements. -/
def testEnvBad : Env := fun k => if k = "FLEET_LIMIT" then "0" else ""

/-! Helper lemmas about the association-list map operations. -/

theorem lookupA_insertA_self {α : Type} (m : List (String × α)) (k : String) (v : α) :
    lookupA (insertA m k v) k = some v := by
  induction m with
  | nil => simp [insertA, lookupA]
  | cons p rest ih =>
    by_cases h : p.1 = k
    · simp [insertA, lookupA, h]
    · simp [insertA, lookupA, h, ih]

theorem lookupA_insertA_ne {α : Type} (m : List (String × α)) (k k' : String) (v : α)
    (h : k' ≠ k) : lookupA (insertA m k v) k' = lookupA m k' := by
  have hkk : ¬ k = k' := fun hx => h hx.symm
  induction m with
  | nil => simp [insertA, lookupA, hkk]
  | cons p rest ih =>
    by_cases hp : p.1 = k
    · have hp' : ¬ p.1 = k' := fun hx => h (hx.symm.trans hp)
      simp [insertA, lookupA, hp, hp', hkk]
    · simp only [insertA, hp, if_false, lookupA]
      by_cases hp' : p.1 = k'
      · simp [hp']
      · simp [hp', ih]

theorem length_insertA_of_mem {α : Type} (m : List (String × α)) (k : String) (v w : α)
    (h : lookupA m k = some v) : (insertA m k w).length = m.length := by
  induction m with
  | nil => simp [lookupA] at h
  | cons p rest ih =>
    by_cases hp : p.1 = k
    · simp [insertA, hp]
    · simp only [lookupA, hp, if_false] at h
      simp [insertA, hp, ih h]

theorem length_insertA_of_absent {α : Type} (m : List (String × α)) (k : String) (w : α)
    (h : lookupA m k = none) : (insertA m k w).length = m.length + 1 := by
  induction m with
  | nil => simp [insertA]
  | cons p rest ih =>
    by_cases hp : p.1 = k
    · simp [lookupA, hp] at h
    · simp only [lookupA, hp, if_false] at h
      simp [insertA, hp, ih h]

theorem lookupA_eraseA_self {α : Type} (m : List (String × α)) (k : String) :
    lookupA (eraseA m k) k = none := by
  induction m with
  | nil => simp [eraseA, lookupA]
  | cons p rest ih =>
    by_cases hp : p.1 = k
    · simpa [eraseA, hp] using ih
    · simpa [eraseA, lookupA, hp] using ih

theorem lookupA_filter {α : Type} (m : List (String × α)) (p : String × α → Bool)
    (k : String) (v : α) (h : lookupA m k = some v) (hp : p (k, v) = true) :
    lookupA (m.filter p) k = some v := by
  induction m with
  | nil => simp [lookupA] at h
  | cons q rest ih =>
    by_cases hq : q.1 = k
    · simp only [lookupA, hq, if_true] at h
      have : q = (k, v) := by
        cases q
        simp only at hq
        simp_all
      subst this
      simp [List.filter, hp, lookupA]
    · simp only [lookupA, hq, if_false] at h
      cases hpq : p q with
      | true => simp [List.filter, hpq, lookupA, hq, ih h]
      | false => simp [List.filter, hpq, ih h]

/-! Helper lemmas about `finishMutation` (the mutate-then-persist tail). -/

theorem finishMutation_ok {α : Type} (s : StateStore) (st' : PersistedState) (pOk : Bool)
    (r : α) (x : α) (h : (finishMutation s st' pOk r).1 = .ok x) :
    pOk = true ∧ x = r ∧
      (finishMutation s st' pOk r).2 = { s with state := st', snapshot := some st' } := by
  cases pOk with
  | false => simp [finishMutation] at h
  | true =>
    have h2 : (Except.ok r : Except StoreErr α) = .ok x := h
    injection h2 with hrx
    subst hrx
    exact ⟨rfl, rfl, rfl⟩

theorem finishMutation_snapshotCurrent {α : Type} (s : StateStore) (st' : PersistedState)
    (pOk : Bool) (r : α) (x : α) (h : (finishMutation s st' pOk r).1 = .ok x) :
    snapshotCurrent (finishMutation s st' pOk r).2 := by
  obtain ⟨-, -, h2⟩ := finishMutation_ok s st' pOk r x h
  rw [h2]
  rfl

/-- C3 — In every reachable state the device count stays within the fleet
limit: a new `device_id` is rejected with `fleet_limit_reached` (and nothing
is inserted) once the count has reached `fleet_limit`; an existing
`device_id` is never rejected for the limit; and `RegisterDevice` preserves
`count ≤ fleet_limit`. -/
theorem registerDevice_fleet_limit (s : StateStore) (pOk : Bool)
    (deviceID hwUID modemIMEI simICCID firmwareVersion freshToken : String) (now : Int) :
    (lookupA s.state.devices deviceID = none →
      (s.state.devices.length : Int) ≥ s.fleetLimit →
      RegisterDevice s pOk deviceID hwUID modemIMEI simICCID firmwareVersion freshToken now
        = (.error .fleetLimitReached, s)) ∧
    (∀ d, lookupA s.state.devices deviceID = some d →
      (RegisterDevice s pOk deviceID hwUID modemIMEI simICCID firmwareVersion freshToken now).1
        ≠ .error .fleetLimitReached) ∧
    ((s.state.devices.length : Int) ≤ s.fleetLimit →
      (((RegisterDevice s pOk deviceID hwUID modemIMEI simICCID firmwareVersion freshToken
        now).2).state.devices.length : Int) ≤ s.fleetLimit) := by
  refine ⟨?_, ?_, ?_⟩
  · intro habs hfull
    simp [RegisterDevice, habs, hfull]
  · intro d hd
    simp only [RegisterDevice, hd]
    by_cases hc : (d.hwUID ≠ "" ∧ hwUID ≠ "" ∧ d.hwUID ≠ hwUID) ∨
        (d.modemIMEI ≠ "" ∧ modemIMEI ≠ "" ∧ d.modemIMEI ≠ modemIMEI)
    · simp [hc]
    · simp only [hc, if_false]
      intro hcontra
      cases pOk with
      | false => simp [finishMutation] at hcontra
      | true => simp [finishMutation] at hcontra
  · intro hle
    simp only [RegisterDevice]
    cases hd : lookupA s.state.devices deviceID with
    | some d =>
      by_cases hc : (d.hwUID ≠ "" ∧ hwUID ≠ "" ∧ d.hwUID ≠ hwUID) ∨
          (d.modemIMEI ≠ "" ∧ modemIMEI ≠ "" ∧ d.modemIMEI ≠ modemIMEI)
      · simpa [hc] using hle
      · have hlen := length_insertA_of_mem s.state.devices deviceID d
          { d with
            hwUID := firstNonEmpty d.hwUID hwUID
            modemIMEI := firstNonEmpty d.modemIMEI modemIMEI
            simICCID := firstNonEmpty d.simICCID simICCID
            firmwareVersion := firstNonEmpty firmwareVersion d.firmwareVersion
            lastSeenAt := now
            lastHeartbeatAt := now
            status := .online } hd
        cases pOk with
        | false => simpa [hc, finishMutation, hlen] using hle
        | true => simpa [hc, finishMutation, hlen] using hle
    | none =>
      by_cases hfull : s.fleetLimit ≤ (s.state.devices.length : Int)
      · simpa [hfull] using hle
      · have hlen := length_insertA_of_absent s.state.devices deviceID
          { deviceID := deviceID
            hwUID := hwUID
            modemIMEI := modemIMEI
            simICCID := simICCID
            firmwareVersion := firmwareVersion
            deviceToken := freshToken
            registeredAt := now
            lastSeenAt := now
            lastHeartbeatAt := now
            lastTelemetryAt := 0
            lastLocationAt := 0
            lastTelemetry := none
            lastLocation := none
            status := .online } hd
        cases pOk with
        | false =>
          simp only [hfull, ge_iff_le, if_false, finishMutation, Bool.false_eq_true]
          rw [hlen]
          push_cast
          omega
        | true =>
          simp only [hfull, ge_iff_le, if_false, finishMutation, if_true]
          rw [hlen]
          push_cast
          omega

/-- C3 witness: with `fleet_limit = 1` and `d1` registered, registering `d2`
fails with `fleet_limit_reached` and inserts nothing, `d1` itself is never
rejected for the limit, and the count stays within the limit. -/
theorem registerDevice_fleet_limit_witness :
    RegisterDevice testStore true "d2" "" "" "" "" "dev_t2" 5
      = (.error .fleetLimitReached, testStore) ∧
    (RegisterDevice testStore true "d1" "u1" "i1" "s1" "r1" "dev_t2" 5).1
      ≠ .error .fleetLimitReached ∧
    (((RegisterDevice testStore true "d1" "u1" "i1" "s1" "r1" "dev_t2" 5).2.state.devices.length
      : Int) ≤ testStore.fleetLimit) := by
  obtain ⟨h1, -, -⟩ := registerDevice_fleet_limit testStore true "d2" "" "" "" "" "dev_t2" 5
  obtain ⟨-, h2, h3⟩ := registerDevice_fleet_limit testStore true "d1" "u1" "i1" "s1" "r1" "dev_t2" 5
  exact ⟨h1 (by decide) (by decide), h2 testDevice (by decide), h3 (by decide)⟩

/-- C8 — Operator token validation succeeds exactly when the token is in the
session map with `now ≤ expires_at`; when it is absent or expired it fails
with `invalid_operator_token`, the entry is deleted, and the same token fails
every subsequent validation. -/
theorem validate_eval_absent (a : OperatorAuth) (token : String) (now : Int)
    (h : lookupA a.tokens token = none) :
    Validate a token now = (.error .invalidToken, { a with tokens := eraseA a.tokens token }) := by
  unfold Validate
  rw [h]

theorem validate_eval_expired (a : OperatorAuth) (token : String) (now expiresAt : Int)
    (h : lookupA a.tokens token = some expiresAt) (hx : now > expiresAt) :
    Validate a token now = (.error .invalidToken, { a with tokens := eraseA a.tokens token }) := by
  unfold Validate
  rw [h]
  simp [hx]

theorem validate_eval_live (a : OperatorAuth) (token : String) (now expiresAt : Int)
    (h : lookupA a.tokens token = some expiresAt) (hx : ¬ now > expiresAt) :
    Validate a token now = (.ok (), a) := by
  unfold Validate
  rw [h]
  simp [hx]

/-- C8 — Operator token validation succeeds exactly when the token is in the
session map with `now ≤ expires_at`; when it is absent or expired it fails
with `invalid_operator_token`, the entry is deleted, and the same token fails
every subsequent validation. -/
theorem operator_validate_correct (a : OperatorAuth) (token : String) (now : Int) :
    ((Validate a token now).1 = .ok () ↔
      ∃ expiresAt, lookupA a.tokens token = some expiresAt ∧ now ≤ expiresAt) ∧
    (∀ e, (Validate a token now).1 = .error e →
      e = .invalidToken ∧
      lookupA ((Validate a token now).2).tokens token = none ∧
      ∀ now2, (Validate (Validate a token now).2 token now2).1 = .error .invalidToken) := by
  cases hl : lookupA a.tokens token with
  | none =>
    rw [validate_eval_absent a token now hl]
    refine ⟨?_, ?_⟩
    · constructor
      · intro h0
        exact absurd h0 (by simp)
      · rintro ⟨e2, he2, -⟩
        exact Option.noConfusion he2
    · intro e he
      refine ⟨by simpa using he.symm, lookupA_eraseA_self a.tokens token, fun now2 => ?_⟩
      rw [validate_eval_absent _ token now2 (lookupA_eraseA_self a.tokens token)]
  | some expiresAt =>
    by_cases hexp : now > expiresAt
    · rw [validate_eval_expired a token now expiresAt hl hexp]
      refine ⟨?_, ?_⟩
      · constructor
        · intro h0
          exact absurd h0 (by simp)
        · rintro ⟨e2, he2, hle⟩
          injection he2 with he2e
          subst he2e
          exact absurd hle (not_le.mpr hexp)
      · intro e he
        refine ⟨by simpa using he.symm, lookupA_eraseA_self a.tokens token, fun now2 => ?_⟩
        rw [validate_eval_absent _ token now2 (lookupA_eraseA_self a.tokens token)]
    · rw [validate_eval_live a token now expiresAt hl hexp]
      refine ⟨⟨fun _ => ⟨expiresAt, rfl, by omega⟩, fun _ => rfl⟩, ?_⟩
      intro e he
      exact absurd he (by simp)

/-- C8 witness: the session `op_t` expires at tick 5; validating at tick 6
fails with `invalid_operator_token`, deletes the entry, and the token fails
again even at tick 0. -/
theorem operator_validate_correct_witness :
    (Validate testAuth "op_t" 6).1 = .error .invalidToken ∧
    lookupA ((Validate testAuth "op_t" 6).2).tokens "op_t" = none ∧
    (Validate (Validate testAuth "op_t" 6).2 "op_t" 0).1 = .error .invalidToken := by
  obtain ⟨-, h2⟩ := operator_validate_correct testAuth "op_t" 6
  obtain ⟨-, hnone, hsub⟩ := h2 .invalidToken rfl
  exact ⟨rfl, hnone, hsub 0⟩

/-- The login-guard cleanup keeps any record whose `lastSeen` is within two
hours of `now`. -/
theorem lookupA_lgCleanup (g : LoginGuard) (now : Int) (ip : String)
    (rec : LoginGuardRecord) (h : lookupA g.perIPStatus ip = some rec)
    (hfresh : ¬ now - rec.lastSeen > 2 * (3600 * second)) :
    lookupA (lgCleanup g now).perIPStatus ip = some rec := by
  unfold lgCleanup
  split
  · exact h
  · exact lookupA_filter _ _ _ _ h (by simpa using hfresh)

/-- C9 — The login guard: the `login_burst`-th consecutive failure sets
`blocked_till = now + 60 s` (the constructed guard's block duration) and
resets the counter, a failure below the threshold only increments the
counter, every attempt while `now < blocked_till` is denied with the
remaining block duration, and a successful login resets the counter. -/
theorem login_guard_correct (g : LoginGuard) (ip : String) (now : Int) :
    (∀ rec, lookupA g.perIPStatus ip = some rec →
      rec.consecutive + 1 ≥ g.burst →
      lookupA (lgOnFailure g ip now).perIPStatus ip =
        some { consecutive := 0, blockedTill := now + g.blockFor, lastSeen := now }) ∧
    (∀ rec, lookupA g.perIPStatus ip = some rec →
      rec.consecutive + 1 < g.burst →
      lookupA (lgOnFailure g ip now).perIPStatus ip =
        some { consecutive := rec.consecutive + 1, blockedTill := rec.blockedTill,
               lastSeen := now }) ∧
    (∀ rec, lookupA g.perIPStatus ip = some rec →
      now < rec.blockedTill →
      lgAllow g ip now = ((false, rec.blockedTill - now), g)) ∧
    (∀ rec, lookupA g.perIPStatus ip = some rec →
      lookupA (lgOnSuccess g ip).perIPStatus ip =
        some { consecutive := 0, blockedTill := rec.blockedTill,
               lastSeen := rec.lastSeen }) ∧
    (∀ r b, 0 < b → (newLoginGuard r b).blockFor = 60 * second) := by
  refine ⟨?_, ?_, ?_, ?_, ?_⟩
  · intro rec hl hb
    unfold lgOnFailure
    rw [hl]
    simp only [Option.getD_some]
    split
    · exact lookupA_lgCleanup _ now ip _ (lookupA_insertA_self _ _ _)
        (show ¬ now - now > 2 * (3600 * second) by simp only [second]; omega)
    · next hcond => exact absurd hb hcond
  · intro rec hl hb
    unfold lgOnFailure
    rw [hl]
    simp only [Option.getD_some]
    split
    · next hcond =>
      exact absurd (show rec.consecutive + 1 ≥ g.burst from hcond) (by omega)
    · exact lookupA_lgCleanup _ now ip _ (lookupA_insertA_self _ _ _)
        (show ¬ now - now > 2 * (3600 * second) by simp only [second]; omega)
  · intro rec hl hb
    unfold lgAllow
    rw [hl]
    simp [hb]
  · intro rec hl
    unfold lgOnSuccess
    rw [hl]
    exact lookupA_insertA_self _ _ _
  · intro r b hb
    simp [newLoginGuard, (by omega : ¬ b ≤ 0)]

/-- C9 witness: with `login_burst = 2` a second consecutive failure at tick 7
blocks the IP until `7 + 60 s` and resets the counter; during the block
(tick 50 < 100) the attempt is denied with the remaining 50 ticks; a first
failure under `login_burst = 5` only increments the counter; success resets
it; and a constructed guard blocks for 60 s. -/
theorem login_guard_correct_witness :
    lookupA (lgOnFailure testGuard "1.2.3.4" 7).perIPStatus "1.2.3.4" =
      some { consecutive := 0, blockedTill := 7 + 60 * second, lastSeen := 7 } ∧
    lgAllow testGuard "1.2.3.4" 50 = ((false, 50), testGuard) ∧
    lookupA (lgOnFailure testGuardFresh "1.2.3.4" 7).perIPStatus "1.2.3.4" =
      some { consecutive := 1, blockedTill := 0, lastSeen := 7 } ∧
    lookupA (lgOnSuccess testGuard "1.2.3.4").perIPStatus "1.2.3.4" =
      some { consecutive := 0, blockedTill := 100, lastSeen := 0 } ∧
    (newLoginGuard 20 5).blockFor = 60 * second := by
  obtain ⟨h1, -, h3, h4, h5⟩ := login_guard_correct testGuard "1.2.3.4" 7
  obtain ⟨-, h2, -, -, -⟩ := login_guard_correct testGuardFresh "1.2.3.4" 7
  obtain ⟨-, -, hb, -, -⟩ := login_guard_correct testGuard "1.2.3.4" 50
  refine ⟨?_, ?_, ?_, ?_, h5 20 5 (by omega)⟩
  · have := h1 { consecutive := 1, blockedTill := 100, lastSeen := 0 } (by decide)
      (by simp [testGuard])
    simpa [testGuard] using this
  · have := hb { consecutive := 1, blockedTill := 100, lastSeen := 0 } (by decide) (by decide)
    simpa using this
  · have := h2 { consecutive := 0, blockedTill := 0, lastSeen := 0 } (by decide)
      (by simp [testGuardFresh])
    simpa using this
  · have := h4 { consecutive := 1, blockedTill := 100, lastSeen := 0 } (by decide)
    simpa using this

/-- C10 — `config.Load` never fails because an environment value does not
parse: unparsable integer, duration, or boolean options are replaced by
their defaults before validation, so every load error is one of the seven
validation messages. -/
theorem config_load_errors_are_validation (env : Env) :
    (∀ key d, env key ≠ "" → atoi (env key) = none → getEnvInt env key d = d) ∧
    (∀ key d, env key ≠ "" → parseDuration (env key) = none → getEnvDuration env key d = d) ∧
    (∀ key d, env key ≠ "" → parseGoBool (env key) = none → getEnvBool env key d = d) ∧
    (∀ e, Load env = .error e →
      e = "fleet limit must be positive" ∨
      e = "operator password must not be empty" ∨
      e = "device enroll key must not be empty" ∨
      e = "max json bytes too small" ∨
      e = "max artifact bytes must be >= max json bytes" ∨
      e = "rate limits must be positive" ∨
      e = "https requires HTTPS_ADDR, TLS_CERT_FILE and TLS_KEY_FILE together") := by
  refine ⟨?_, ?_, ?_, ?_⟩
  · intro key d hne hparse
    simp [getEnvInt, hne, hparse]
  · intro key d hne hparse
    simp [getEnvDuration, hne, hparse]
  · intro key d hne hparse
    simp [getEnvBool, hne, hparse]
  · intro e h
    unfold Load validateConfig at h
    repeat' split at h
    all_goals first
      | exact Except.noConfusion h
      | (injection h with he; subst he; tauto)

/-- C10 witness: the unparsable values `FLEET_LIMIT=zzz`,
`OPERATOR_TOKEN_TTL=soon`, and `TRUST_PROXY_HEADERS=maybe` all fall back to
their defaults, and the value `FLEET_LIMIT=0` (which parses but violates
validation) produces exactly the validation error. -/
theorem config_load_errors_are_validation_witness :
    getEnvInt testEnv "FLEET_LIMIT" 10 = 10 ∧
    getEnvDuration testEnv "OPERATOR_TOKEN_TTL" (12 * 3600 * second) = 12 * 3600 * second ∧
    getEnvBool testEnv "TRUST_PROXY_HEADERS" false = false ∧
    ((Load testEnvBad = .error "fleet limit must be positive") →
      ("fleet limit must be positive" = "fleet limit must be positive" ∨
       "fleet limit must be positive" = "operator password must not be empty" ∨
       "fleet limit must be positive" = "device enroll key must not be empty" ∨
       "fleet limit must be positive" = "max json bytes too small" ∨
       "fleet limit must be positive" = "max artifact bytes must be >= max json bytes" ∨
       "fleet limit must be positive" = "rate limits must be positive" ∨
       "fleet limit must be positive" =
         "https requires HTTPS_ADDR, TLS_CERT_FILE and TLS_KEY_FILE together")) := by
  obtain ⟨h1, h2, h3, -⟩ := config_load_errors_are_validation testEnv
  obtain ⟨-, -, -, h4⟩ := config_load_errors_are_validation testEnvBad
  exact ⟨h1 "FLEET_LIMIT" 10 (by decide) (by decide),
    h2 "OPERATOR_TOKEN_TTL" _ (by decide) (by decide),
    h3 "TRUST_PROXY_HEADERS" false (by decide) (by decide),
    fun _ => h4 "fleet limit must be positive" rfl⟩

/-! Helper lemmas about the queue scans of `PullNextCommand` and
`CompleteCommand`. -/

theorem pullNextAux_none (now : Int) (queue : List Command)
    (h : ∀ c ∈ queue, c.status ≠ CommandQueued) : pullNextAux now queue = none := by
  induction queue with
  | nil => rfl
  | cons item rest ih =>
    have h1 : ¬ item.status = CommandQueued := h item (by simp)
    unfold pullNextAux
    rw [if_neg h1, ih (fun c hc => h c (List.mem_cons_of_mem _ hc))]

theorem pullNextAux_first_queued (now : Int) (l1 : List Command) (x : Command)
    (l2 : List Command) (hl1 : ∀ y ∈ l1, y.status ≠ CommandQueued)
    (hx : x.status = CommandQueued) :
    pullNextAux now (l1 ++ x :: l2) =
      some (dispatchedCommand x now, l1 ++ dispatchedCommand x now :: l2) := by
  induction l1 with
  | nil =>
    simp only [List.nil_append]
    unfold pullNextAux
    rw [if_pos hx]
  | cons y ys ih =>
    have hy : ¬ y.status = CommandQueued := hl1 y (by simp)
    simp only [List.cons_append]
    unfold pullNextAux
    rw [if_neg hy, ih (fun z hz => hl1 z (List.mem_cons_of_mem _ hz))]

theorem completeAux_found (commandID : String) (result : CommandResult) (now : Int)
    (l1 : List Command) (x : Command) (l2 : List Command)
    (hl1 : ∀ y ∈ l1, y.commandID ≠ commandID) (hx : x.commandID = commandID) :
    completeAux commandID result now (l1 ++ x :: l2) =
      some (completedCommand x result now, l1 ++ completedCommand x result now :: l2) := by
  induction l1 with
  | nil =>
    simp only [List.nil_append]
    unfold completeAux
    rw [if_pos hx]
  | cons y ys ih =>
    have hy : ¬ y.commandID = commandID := hl1 y (by simp)
    simp only [List.cons_append]
    unfold completeAux
    rw [if_neg hy, ih (fun z hz => hl1 z (List.mem_cons_of_mem _ hz))]

theorem completedCommand_status (item : Command) (result : CommandResult) (now : Int) :
    (completedCommand item result now).status =
      (if result.status = CommandSuccess then CommandSuccess else CommandFailed) ∧
    (completedCommand item result now).completedAt = some now := by
  unfold completedCommand
  by_cases h0 : result.status = ""
  · have hns : ¬ result.status = CommandSuccess := by
      rw [h0]
      decide
    simp [h0, hns, CommandFailed, CommandSuccess]
  · simp [h0]

/-- C1 counterexample — the concrete store holds command `cmd_1` with status
`queued`; `CompleteCommand` nonetheless finalizes it, moving it directly from
`queued` to `success`, so the status sequence `queued, success` occurs. -/
theorem command_status_monotone_counterexample :
    testCommand.status = CommandQueued ∧
    lookupA testStore.state.commandsByID "d1" = some [testCommand] ∧
    (CompleteCommand testStore true "d1" "dev_t1" "cmd_1" testResult 3).1 =
      .ok (completedCommand testCommand testResult 3) ∧
    (completedCommand testCommand testResult 3).status = CommandSuccess ∧
    lookupA ((CompleteCommand testStore true "d1" "dev_t1" "cmd_1" testResult 3).2).state.commandsByID
      "d1" = some [completedCommand testCommand testResult 3] := by
  exact ⟨rfl, rfl, rfl, rfl, rfl⟩

/-- C1 (amended) — `CompleteCommand` finalizes the matched command without
consulting its current status: it stamps `completed_at = now`, stores the
result, and sets status `success` when `result.status = success` and `failed`
otherwise, whatever the prior status was (even `queued`, `success`, or
`failed`); the `queued → dispatched` step is status-guarded only in
`PullNextCommand`, which dispatches exclusively entries whose status is
`queued`. -/
theorem completeCommand_ignores_prior_status (s : StateStore) (pOk : Bool)
    (deviceID deviceToken commandID : String) (result : CommandResult) (now : Int)
    (device : Device) (hdev : lookupA s.state.devices deviceID = some device)
    (htok : device.deviceToken = deviceToken)
    (l1 : List Command) (x : Command) (l2 : List Command)
    (hq : (lookupA s.state.commandsByID deviceID).getD [] = l1 ++ x :: l2)
    (hl1 : ∀ y ∈ l1, y.commandID ≠ commandID) (hx : x.commandID = commandID) :
    (CompleteCommand s pOk deviceID deviceToken commandID result now).1 =
      (if pOk then Except.ok (completedCommand x result now)
        else .error .persistFailed) ∧
    (completedCommand x result now).status =
      (if result.status = CommandSuccess then CommandSuccess else CommandFailed) ∧
    (completedCommand x result now).completedAt = some now ∧
    lookupA ((CompleteCommand s pOk deviceID deviceToken commandID result now).2).state.commandsByID
      deviceID = some (l1 ++ completedCommand x result now :: l2) ∧
    (∀ queue c queue', pullNextAux now queue = some (c, queue') →
      ∃ m1 y m2, queue = m1 ++ y :: m2 ∧ y.status = CommandQueued ∧
        c = dispatchedCommand y now ∧ queue' = m1 ++ c :: m2) := by
  have hreq : requireDeviceLocked s.state deviceID deviceToken = .ok device := by
    simp [requireDeviceLocked, hdev, htok]
  have hscan := completeAux_found commandID result now l1 x l2 hl1 hx
  obtain ⟨hst, hca⟩ := completedCommand_status x result now
  refine ⟨?_, hst, hca, ?_, ?_⟩
  · unfold CompleteCommand
    rw [hreq, hq, hscan]
    cases pOk with
    | false => rfl
    | true => rfl
  · unfold CompleteCommand
    rw [hreq, hq, hscan]
    cases pOk with
    | false => exact lookupA_insertA_self _ _ _
    | true => exact lookupA_insertA_self _ _ _
  · intro queue c queue' hp
    induction queue generalizing c queue' with
    | nil => exact Option.noConfusion hp
    | cons item rest ih =>
      by_cases hit : item.status = CommandQueued
      · unfold pullNextAux at hp
        rw [if_pos hit] at hp
        injection hp with hp2
        obtain ⟨hc, hq2⟩ := Prod.mk.injEq .. ▸ hp2
        refine ⟨[], item, rest, rfl, hit, hc.symm, ?_⟩
        rw [← hq2, ← hc]
        simp
      · unfold pullNextAux at hp
        rw [if_neg hit] at hp
        cases hrec : pullNextAux now rest with
        | none =>
          rw [hrec] at hp
          exact Option.noConfusion hp
        | some pr =>
          rw [hrec] at hp
          obtain ⟨c0, rest0⟩ := pr
          injection hp with hp2
          obtain ⟨hc, hq2⟩ := Prod.mk.injEq .. ▸ hp2
          obtain ⟨m1, y, m2, hqeq, hy, hcy, hrest⟩ := ih c0 rest0 hrec
          refine ⟨item :: m1, y, m2, by rw [hqeq]; simp, hy, by rw [← hc, hcy], ?_⟩
          rw [← hq2, hrest, ← hc]
          simp

/-- C1 witness: at the concrete store whose only command is still `queued`,
`CompleteCommand` returns it finalized as `success` with
`completed_at = 3`. -/
theorem completeCommand_ignores_prior_status_witness :
    (CompleteCommand testStore true "d1" "dev_t1" "cmd_1" testResult 3).1 =
      .ok (completedCommand testCommand testResult 3) ∧
    (completedCommand testCommand testResult 3).status = CommandSuccess ∧
    (completedCommand testCommand testResult 3).completedAt = some 3 := by
  obtain ⟨h1, h2, h3, -, -⟩ := completeCommand_ignores_prior_status testStore true
    "d1" "dev_t1" "cmd_1" testResult 3 testDevice rfl rfl [] testCommand []
    rfl (by simp) rfl
  exact ⟨h1, h2, h3⟩

/-- C6 — For a device presenting a valid token, `PullNextCommand` dispatches
the first command in insertion order whose status is `queued`, setting its
status to `dispatched` and `dispatched_at = now` and rewriting only that
entry; when no entry is queued it returns `none`, leaves every command
unchanged, and still updates the device's `last_seen_at`. -/
theorem pullNextCommand_dispatch_order (s : StateStore) (pOk : Bool)
    (deviceID deviceToken : String) (now : Int) (device : Device)
    (hdev : lookupA s.state.devices deviceID = some device)
    (htok : device.deviceToken = deviceToken) :
    ((∀ c ∈ (lookupA s.state.commandsByID deviceID).getD [], c.status ≠ CommandQueued) →
      (PullNextCommand s pOk deviceID deviceToken now).1 =
        (if pOk then Except.ok none else .error .persistFailed) ∧
      ((PullNextCommand s pOk deviceID deviceToken now).2).state.commandsByID =
        s.state.commandsByID ∧
      lookupA ((PullNextCommand s pOk deviceID deviceToken now).2).state.devices deviceID =
        some { device with lastSeenAt := now, status := .online }) ∧
    (∀ l1 x l2, (lookupA s.state.commandsByID deviceID).getD [] = l1 ++ x :: l2 →
      (∀ y ∈ l1, y.status ≠ CommandQueued) → x.status = CommandQueued →
      (PullNextCommand s pOk deviceID deviceToken now).1 =
        (if pOk then Except.ok (some (dispatchedCommand x now))
          else .error .persistFailed) ∧
      (dispatchedCommand x now).status = CommandDispatched ∧
      (dispatchedCommand x now).dispatchedAt = some now ∧
      lookupA ((PullNextCommand s pOk deviceID deviceToken now).2).state.commandsByID deviceID =
        some (l1 ++ dispatchedCommand x now :: l2) ∧
      lookupA ((PullNextCommand s pOk deviceID deviceToken now).2).state.devices deviceID =
        some { device with lastSeenAt := now, status := .online }) := by
  have hreq : requireDeviceLocked s.state deviceID deviceToken = .ok device := by
    simp [requireDeviceLocked, hdev, htok]
  refine ⟨?_, ?_⟩
  · intro hnone
    have hscan := pullNextAux_none now _ hnone
    unfold PullNextCommand
    rw [hreq, hscan]
    cases pOk with
    | false => exact ⟨rfl, rfl, lookupA_insertA_self _ _ _⟩
    | true => exact ⟨rfl, rfl, lookupA_insertA_self _ _ _⟩
  · intro l1 x l2 hq hl1 hx
    have hscan := pullNextAux_first_queued now l1 x l2 hl1 hx
    unfold PullNextCommand
    rw [hreq, hq, hscan]
    refine ⟨?_, rfl, rfl, ?_, ?_⟩
    · cases pOk with
      | false => rfl
      | true => rfl
    · cases pOk with
      | false => exact lookupA_insertA_self _ _ _
      | true => exact lookupA_insertA_self _ _ _
    · cases pOk with
      | false => exact lookupA_insertA_self _ _ _
      | true => exact lookupA_insertA_self _ _ _

/-- C6 witness: at the concrete store whose queue holds the single queued
command `cmd_1`, pulling dispatches it with `dispatched_at = 4`; at the
concrete store with an empty queue, pulling returns `none`, leaves the
commands unchanged, and still bumps `last_seen_at`. -/
theorem pullNextCommand_dispatch_order_witness :
    (PullNextCommand testStore true "d1" "dev_t1" 4).1 =
      .ok (some (dispatchedCommand testCommand 4)) ∧
    (dispatchedCommand testCommand 4).status = CommandDispatched ∧
    (dispatchedCommand testCommand 4).dispatchedAt = some 4 ∧
    (PullNextCommand testStoreNoQueue true "d1" "dev_t1" 4).1 = .ok none ∧
    ((PullNextCommand testStoreNoQueue true "d1" "dev_t1" 4).2).state.commandsByID =
      testStoreNoQueue.state.commandsByID ∧
    lookupA ((PullNextCommand testStoreNoQueue true "d1" "dev_t1" 4).2).state.devices "d1" =
      some { testDevice with lastSeenAt := 4, status := .online } := by
  obtain ⟨-, hsome⟩ := pullNextCommand_dispatch_order testStore true "d1" "dev_t1" 4
    testDevice rfl rfl
  obtain ⟨h1, h2, h3, -, -⟩ := hsome [] testCommand [] rfl (by simp) rfl
  obtain ⟨hnone, -⟩ := pullNextCommand_dispatch_order testStoreNoQueue true "d1" "dev_t1" 4
    testDevice rfl rfl
  obtain ⟨h4, h5, h6⟩ := hnone (by simp [testStateNoQueue, testStoreNoQueue, lookupA])
  exact ⟨h1, h2, h3, h4, h5, h6⟩

/-- C2 counterexample — the stored device `d1` has the non-empty
`sim_iccid = "s1"`; re-registering `d1` with the different non-empty
`sim_iccid = "s2"` does not fail with `device_exists_with_other_identity` (it
succeeds), though the stored `sim_iccid` stays `"s1"`. -/
theorem register_sim_conflict_counterexample :
    testDevice.simICCID = "s1" ∧
    testDeviceRefreshed.simICCID = "s1" ∧
    (RegisterDevice testStore true "d1" "" "" "s2" "" "dev_t9" 5).1 ≠
      .error .deviceExistsWithOtherIdentity ∧
    (RegisterDevice testStore true "d1" "" "" "s2" "" "dev_t9" 5).1 =
      .ok (testDeviceRefreshed, false) ∧
    lookupA ((RegisterDevice testStore true "d1" "" "" "s2" "" "dev_t9" 5).2).state.devices
      "d1" = some testDeviceRefreshed := by
  refine ⟨rfl, rfl, ?_, rfl, rfl⟩
  intro h
  rw [show (RegisterDevice testStore true "d1" "" "" "s2" "" "dev_t9" 5).1 =
    .ok (testDeviceRefreshed, false) from rfl] at h
  exact Except.noConfusion h

/-- C2 (amended) — Re-registration of an existing `device_id` fails with
`device_exists_with_other_identity` (leaving the store unchanged) exactly for
a conflicting non-empty `hw_uid` or `modem_imei`; a differing non-empty
`sim_iccid` alone is accepted, and in every accepted re-registration no
non-empty stored identifier (`hw_uid`, `modem_imei`, or `sim_iccid`) is
overwritten with a different value. -/
theorem register_identity_immutable (s : StateStore) (pOk : Bool)
    (deviceID hwUID modemIMEI simICCID firmwareVersion freshToken : String) (now : Int)
    (existing : Device) (hd : lookupA s.state.devices deviceID = some existing) :
    (((existing.hwUID ≠ "" ∧ hwUID ≠ "" ∧ existing.hwUID ≠ hwUID) ∨
      (existing.modemIMEI ≠ "" ∧ modemIMEI ≠ "" ∧ existing.modemIMEI ≠ modemIMEI)) →
      RegisterDevice s pOk deviceID hwUID modemIMEI simICCID firmwareVersion freshToken now
        = (.error .deviceExistsWithOtherIdentity, s)) ∧
    (¬ ((existing.hwUID ≠ "" ∧ hwUID ≠ "" ∧ existing.hwUID ≠ hwUID) ∨
      (existing.modemIMEI ≠ "" ∧ modemIMEI ≠ "" ∧ existing.modemIMEI ≠ modemIMEI)) →
      lookupA ((RegisterDevice s pOk deviceID hwUID modemIMEI simICCID firmwareVersion
          freshToken now).2).state.devices deviceID =
        some { existing with
          hwUID := firstNonEmpty existing.hwUID hwUID
          modemIMEI := firstNonEmpty existing.modemIMEI modemIMEI
          simICCID := firstNonEmpty existing.simICCID simICCID
          firmwareVersion := firstNonEmpty firmwareVersion existing.firmwareVersion
          lastSeenAt := now
          lastHeartbeatAt := now
          status := .online } ∧
      (existing.hwUID ≠ "" → firstNonEmpty existing.hwUID hwUID = existing.hwUID) ∧
      (existing.modemIMEI ≠ "" →
        firstNonEmpty existing.modemIMEI modemIMEI = existing.modemIMEI) ∧
      (existing.simICCID ≠ "" →
        firstNonEmpty existing.simICCID simICCID = existing.simICCID) ∧
      (pOk = true →
        (RegisterDevice s pOk deviceID hwUID modemIMEI simICCID firmwareVersion
          freshToken now).1 =
        .ok ({ existing with
          hwUID := firstNonEmpty existing.hwUID hwUID
          modemIMEI := firstNonEmpty existing.modemIMEI modemIMEI
          simICCID := firstNonEmpty existing.simICCID simICCID
          firmwareVersion := firstNonEmpty firmwareVersion existing.firmwareVersion
          lastSeenAt := now
          lastHeartbeatAt := now
          status := .online }, false))) := by
  refine ⟨?_, ?_⟩
  · intro hc
    simp only [RegisterDevice, hd]
    rw [if_pos hc]
  · intro hc
    refine ⟨?_, ?_, ?_, ?_, ?_⟩
    · simp only [RegisterDevice, hd]
      rw [if_neg hc]
      cases pOk with
      | false => exact lookupA_insertA_self _ _ _
      | true => exact lookupA_insertA_self _ _ _
    · intro h
      simp [firstNonEmpty, h]
    · intro h
      simp [firstNonEmpty, h]
    · intro h
      simp [firstNonEmpty, h]
    · intro hok
      subst hok
      simp only [RegisterDevice, hd]
      rw [if_neg hc]
      rfl

/-- C2 witness: re-registering `d1` with the conflicting non-empty
`hw_uid = "u2"` fails and leaves the store unchanged; re-registering with
matching identifiers keeps the stored `hw_uid`, `modem_imei`, and
`sim_iccid`. -/
theorem register_identity_immutable_witness :
    RegisterDevice testStore true "d1" "u2" "" "" "" "dev_t9" 5 =
      (.error .deviceExistsWithOtherIdentity, testStore) ∧
    firstNonEmpty testDevice.hwUID "" = testDevice.hwUID ∧
    firstNonEmpty testDevice.modemIMEI "" = testDevice.modemIMEI ∧
    firstNonEmpty testDevice.simICCID "s2" = testDevice.simICCID := by
  obtain ⟨hrej, -⟩ := register_identity_immutable testStore true "d1" "u2" "" "" ""
    "dev_t9" 5 testDevice rfl
  obtain ⟨-, hfill⟩ := register_identity_immutable testStore true "d1" "" "" "s2" ""
    "dev_t9" 5 testDevice rfl
  obtain ⟨-, h1, h2, h3, -⟩ := hfill (by simp [testDevice])
  exact ⟨hrej (by simp [testDevice]), h1 (by simp [testDevice]), h2 (by simp [testDevice]),
    h3 (by simp [testDevice])⟩

/-! Helper lemmas about the status refresh and the device sort. -/

theorem refreshStatus_spec (device : Device) (now offlineAfter : Int) :
    ((refreshStatus device now offlineAfter).status = .online ↔
      now - device.lastSeenAt ≤ offlineAfter) ∧
    (refreshStatus device now offlineAfter).lastSeenAt = device.lastSeenAt := by
  constructor
  · unfold refreshStatus
    by_cases h : now - device.lastSeenAt > offlineAfter
    · rw [if_pos h]
      constructor
      · intro hx
        exact DeviceStatus.noConfusion hx
      · intro hle
        exact absurd hle (by omega)
    · rw [if_neg h]
      exact ⟨fun _ => by omega, fun _ => rfl⟩
  · unfold refreshStatus
    split <;> rfl

theorem insertSorted_perm (d : Device) (l : List Device) :
    (insertSorted d l).Perm (d :: l) := by
  induction l with
  | nil => exact List.Perm.refl _
  | cons x xs ih =>
    unfold insertSorted
    split
    · exact List.Perm.refl _
    · exact (ih.cons x).trans (List.Perm.swap d x xs)

theorem sortDevices_perm (l : List Device) : (sortDevices l).Perm l := by
  induction l with
  | nil => exact List.Perm.refl _
  | cons x xs ih => exact (insertSorted_perm x (sortDevices xs)).trans (ih.cons x)

theorem insertSorted_pairwise (d : Device) (l : List Device)
    (h : l.Pairwise (fun a b => a.deviceID ≤ b.deviceID)) :
    (insertSorted d l).Pairwise (fun a b => a.deviceID ≤ b.deviceID) := by
  induction l with
  | nil => simp [insertSorted]
  | cons x xs ih =>
    rw [List.pairwise_cons] at h
    obtain ⟨hx, hxs⟩ := h
    unfold insertSorted
    split
    · next hlt =>
      rw [List.pairwise_cons]
      refine ⟨?_, List.pairwise_cons.mpr ⟨hx, hxs⟩⟩
      intro b hb
      rcases List.mem_cons.mp hb with hb2 | hb2
      · subst hb2
        exact le_of_lt hlt
      · exact (le_of_lt hlt).trans (hx b hb2)
    · next hnlt =>
      rw [List.pairwise_cons]
      refine ⟨?_, ih hxs⟩
      intro b hb
      have hmem := (insertSorted_perm d xs).mem_iff.mp hb
      rcases List.mem_cons.mp hmem with hb2 | hb2
      · subst hb2
        exact le_of_not_lt hnlt
      · exact hx b hb2

theorem sortDevices_pairwise (l : List Device) :
    (sortDevices l).Pairwise (fun a b => a.deviceID ≤ b.deviceID) := by
  induction l with
  | nil => simp [sortDevices]
  | cons x xs ih => exact insertSorted_pairwise x _ ih

/-- C7 — `GetDevice` and `ListDevices` recompute every returned device's
status: `online` exactly when `now − last_seen_at ≤ device_offline_after`
(the boundary equality yields `online`), and `ListDevices` returns the
refreshed clones sorted ascending by `device_id`. -/
theorem device_status_refresh (s : StateStore) (pOk : Bool) (now offlineAfter : Int) :
    (∀ deviceID device, lookupA s.state.devices deviceID = some device →
      (GetDevice s pOk deviceID now offlineAfter).1 =
        (if pOk then Except.ok (refreshStatus device now offlineAfter)
          else .error .persistFailed) ∧
      ((refreshStatus device now offlineAfter).status = .online ↔
        now - device.lastSeenAt ≤ offlineAfter)) ∧
    (∀ out, (ListDevices s pOk now offlineAfter).1 = .ok out →
      out.Pairwise (fun a b => a.deviceID ≤ b.deviceID) ∧
      out.Perm (s.state.devices.map (fun p => refreshStatus p.2 now offlineAfter)) ∧
      ∀ d ∈ out, (d.status = .online ↔ now - d.lastSeenAt ≤ offlineAfter)) := by
  refine ⟨?_, ?_⟩
  · intro deviceID device hd
    refine ⟨?_, (refreshStatus_spec device now offlineAfter).1⟩
    unfold GetDevice
    rw [hd]
    cases pOk with
    | false => rfl
    | true => rfl
  · intro out hok
    unfold ListDevices at hok
    obtain ⟨hp, hx, -⟩ := finishMutation_ok _ _ _ _ _ hok
    subst hx
    refine ⟨sortDevices_pairwise _, ?_, ?_⟩
    · refine (sortDevices_perm _).trans ?_
      rw [List.map_map]
      exact List.Perm.refl _
    · intro d hd
      have hd2 := (sortDevices_perm _).mem_iff.mp hd
      obtain ⟨q, hq, hqd⟩ := List.mem_map.mp hd2
      obtain ⟨p, hp2, hpq⟩ := List.mem_map.mp hq
      subst hqd
      subst hpq
      obtain ⟨hiff, hseen⟩ := refreshStatus_spec p.2 now offlineAfter
      simpa [hseen] using hiff

/-- C7 witness: at the boundary `now − last_seen_at = device_offline_after`
(10 − 0 = 10) the device is reported `online`; past it (25 − 0 > 10) it is
`offline`; and the one-device listing is returned sorted. -/
theorem device_status_refresh_witness :
    (GetDevice testStore true "d1" 10 10).1 = .ok (refreshStatus testDevice 10 10) ∧
    (refreshStatus testDevice 10 10).status = .online ∧
    (refreshStatus testDevice 25 10).status = .offline ∧
    (ListDevices testStore true 10 10).1 = .ok [refreshStatus testDevice 10 10] ∧
    [refreshStatus testDevice 10 10].Pairwise (fun a b => a.deviceID ≤ b.deviceID) := by
  obtain ⟨hget, hiff⟩ := (device_status_refresh testStore true 10 10).1 "d1" testDevice rfl
  obtain ⟨hpair, -, -⟩ := (device_status_refresh testStore true 10 10).2
    [refreshStatus testDevice 10 10] (by rfl)
  obtain ⟨-, hiff2⟩ := (device_status_refresh testStore true 25 10).1 "d1" testDevice rfl
  refine ⟨hget, hiff.mpr (by decide), ?_, by rfl, hpair⟩
  cases hst : (refreshStatus testDevice 25 10).status with
  | online => exact absurd (hiff2.mp hst) (by decide)
  | offline => rfl

/-- C4 — Every state-store operation that mutates state (register, device
token validation, heartbeat, telemetry, location, command add/pull/complete,
artifact save, and the status-refreshing device reads) writes the complete
serialized state into the snapshot before returning success: starting from a
store whose snapshot is current, whenever one of them returns `ok` the
resulting snapshot holds exactly the resulting state. -/
theorem mutations_persist_snapshot (s : StateStore) (h0 : snapshotCurrent s) :
    (∀ pOk deviceID hwUID modemIMEI simICCID firmwareVersion freshToken now x s',
      RegisterDevice s pOk deviceID hwUID modemIMEI simICCID firmwareVersion freshToken now
        = (.ok x, s') → snapshotCurrent s') ∧
    (∀ pOk deviceID deviceToken now x s',
      ValidateDeviceToken s pOk deviceID deviceToken now = (.ok x, s') →
        snapshotCurrent s') ∧
    (∀ pOk deviceID deviceToken now x s',
      AddHeartbeat s pOk deviceID deviceToken now = (.ok x, s') → snapshotCurrent s') ∧
    (∀ pOk deviceID deviceToken data now x s',
      AddTelemetry s pOk deviceID deviceToken data now = (.ok x, s') →
        snapshotCurrent s') ∧
    (∀ pOk deviceID deviceToken location now x s',
      AddLocation s pOk deviceID deviceToken location now = (.ok x, s') →
        snapshotCurrent s') ∧
    (∀ pOk now offlineAfter x s',
      ListDevices s pOk now offlineAfter = (.ok x, s') → snapshotCurrent s') ∧
    (∀ pOk deviceID now offlineAfter x s',
      GetDevice s pOk deviceID now offlineAfter = (.ok x, s') → snapshotCurrent s') ∧
    (∀ pOk deviceID commandType payload createdBy freshID now x s',
      AddCommand s pOk deviceID commandType payload createdBy freshID now = (.ok x, s') →
        snapshotCurrent s') ∧
    (∀ pOk deviceID deviceToken now x s',
      PullNextCommand s pOk deviceID deviceToken now = (.ok x, s') →
        snapshotCurrent s') ∧
    (∀ pOk deviceID deviceToken commandID result now x s',
      CompleteCommand s pOk deviceID deviceToken commandID result now = (.ok x, s') →
        snapshotCurrent s') ∧
    (∀ pOk name contentType payload createdBy now x s',
      SaveArtifact s pOk name contentType payload createdBy now = (.ok x, s') →
        snapshotCurrent s') := by
  have step : ∀ {α : Type} (st' : PersistedState) (pOk : Bool) (r x : α) (s' : StateStore),
      finishMutation s st' pOk r = (.ok x, s') → snapshotCurrent s' := by
    intro α st' pOk r x s' h
    unfold finishMutation at h
    split at h
    · simp only [Prod.mk.injEq] at h
      obtain ⟨-, h2⟩ := h
      subst h2
      rfl
    · simp only [Prod.mk.injEq] at h
      exact Except.noConfusion h.1
  refine ⟨?_, ?_, ?_, ?_, ?_, ?_, ?_, ?_, ?_, ?_, ?_⟩
  · intro pOk deviceID hwUID modemIMEI simICCID firmwareVersion freshToken now x s' hok
    unfold RegisterDevice at hok
    repeat' split at hok
    all_goals first
      | exact step _ _ _ _ _ hok
      | (simp only [Prod.mk.injEq] at hok; exact Except.noConfusion hok.1)
  · intro pOk deviceID deviceToken now x s' hok
    unfold ValidateDeviceToken at hok
    repeat' split at hok
    all_goals first
      | exact step _ _ _ _ _ hok
      | (simp only [Prod.mk.injEq] at hok; exact Except.noConfusion hok.1)
  · intro pOk deviceID deviceToken now x s' hok
    unfold AddHeartbeat at hok
    repeat' split at hok
    all_goals first
      | exact step _ _ _ _ _ hok
      | (simp only [Prod.mk.injEq] at hok; exact Except.noConfusion hok.1)
  · intro pOk deviceID deviceToken data now x s' hok
    unfold AddTelemetry at hok
    repeat' split at hok
    all_goals first
      | exact step _ _ _ _ _ hok
      | (simp only [Prod.mk.injEq] at hok; exact Except.noConfusion hok.1)
  · intro pOk deviceID deviceToken location now x s' hok
    unfold AddLocation at hok
    repeat' split at hok
    all_goals first
      | exact step _ _ _ _ _ hok
      | (simp only [Prod.mk.injEq] at hok; exact Except.noConfusion hok.1)
  · intro pOk now offlineAfter x s' hok
    unfold ListDevices at hok
    exact step _ _ _ _ _ hok
  · intro pOk deviceID now offlineAfter x s' hok
    unfold GetDevice at hok
    repeat' split at hok
    all_goals first
      | exact step _ _ _ _ _ hok
      | (simp only [Prod.mk.injEq] at hok; exact Except.noConfusion hok.1)
  · intro pOk deviceID commandType payload createdBy freshID now x s' hok
    unfold AddCommand at hok
    repeat' split at hok
    all_goals first
      | exact step _ _ _ _ _ hok
      | (simp only [Prod.mk.injEq] at hok; exact Except.noConfusion hok.1)
  · intro pOk deviceID deviceToken now x s' hok
    unfold PullNextCommand at hok
    repeat' split at hok
    all_goals first
      | exact step _ _ _ _ _ hok
      | (simp only [Prod.mk.injEq] at hok; exact Except.noConfusion hok.1)
  · intro pOk deviceID deviceToken commandID result now x s' hok
    unfold CompleteCommand at hok
    repeat' split at hok
    all_goals first
      | exact step _ _ _ _ _ hok
      | (simp only [Prod.mk.injEq] at hok; exact Except.noConfusion hok.1)
  · intro pOk name contentType payload createdBy now x s' hok
    unfold SaveArtifact at hok
    simp only [] at hok
    cases hl : lookupA s.state.artifacts
        (artifactFor name contentType payload createdBy now).artifactID with
    | some existing =>
      rw [hl] at hok
      have hok2 : ((Except.ok existing : Except StoreErr Artifact), s) = (.ok x, s') := hok
      simp only [Prod.mk.injEq] at hok2
      obtain ⟨-, h2⟩ := hok2
      subst h2
      exact h0
    | none =>
      rw [hl] at hok
      exact step _ _ _ _ _ hok

/-- C4 witness: the concrete store's snapshot is current, and it stays
current after a successful heartbeat and after a successful telemetry
append. -/
theorem mutations_persist_snapshot_witness :
    snapshotCurrent testStore ∧
    snapshotCurrent (AddHeartbeat testStore true "d1" "dev_t1" 5).2 ∧
    snapshotCurrent (AddCommand testStore true "d1" "swd_reset" [] "operator" "cmd_2" 5).2 := by
  obtain ⟨-, -, hhb, -, -, -, -, hcmd, -, -, -⟩ := mutations_persist_snapshot testStore rfl
  exact ⟨rfl,
    hhb true "d1" "dev_t1" 5 () (AddHeartbeat testStore true "d1" "dev_t1" 5).2 rfl,
    hcmd true "d1" "swd_reset" [] "operator" "cmd_2" 5 _
      (AddCommand testStore true "d1" "swd_reset" [] "operator" "cmd_2" 5).2 rfl⟩

/-- Evaluation of `GetArtifact` on a present id. -/
theorem getArtifact_eval (s : StateStore) (artifactID : String) (a : Artifact)
    (h : lookupA s.state.artifacts artifactID = some a) :
    GetArtifact s artifactID = .ok a := by
  unfold GetArtifact
  rw [h]

/-- Deduplication core of `SaveArtifact`: when the content-derived id is
already stored, the already-stored record is returned and the store is left
entirely unchanged — whatever the incoming name, content type, creator, or
time. -/
theorem saveArtifact_dedup (s : StateStore) (pOk : Bool) (name contentType : String)
    (payload : List Nat) (createdBy : String) (now : Int) (existing : Artifact)
    (hsome : lookupA s.state.artifacts
      ("art_" ++ (hexEncode (sha256 payload)).take 24) = some existing) :
    SaveArtifact s pOk name contentType payload createdBy now = (.ok existing, s) := by
  unfold SaveArtifact
  simp only []
  rw [show (artifactFor name contentType payload createdBy now).artifactID =
    "art_" ++ (hexEncode (sha256 payload)).take 24 from rfl, hsome]

/-- C5 — `SaveArtifact` stores the payload under
`artifact_id = "art_" + first 24 hex digits of sha256(payload)`; a save of
identical payload bytes (regardless of name or content type) returns the
already-stored record and inserts nothing; and `GetArtifact` of the returned
id yields exactly the uploaded bytes. -/
theorem saveArtifact_content_addressed (s : StateStore) (name contentType : String)
    (payload : List Nat) (createdBy : String) (now : Int) :
    (artifactFor name contentType payload createdBy now).artifactID =
      "art_" ++ (hexEncode (sha256 payload)).take 24 ∧
    (artifactFor name contentType payload createdBy now).payload = payload ∧
    (lookupA s.state.artifacts (artifactFor name contentType payload createdBy now).artifactID
        = none →
      (SaveArtifact s true name contentType payload createdBy now).1 =
        .ok (artifactFor name contentType payload createdBy now) ∧
      lookupA ((SaveArtifact s true name contentType payload createdBy now).2).state.artifacts
        (artifactFor name contentType payload createdBy now).artifactID =
        some (artifactFor name contentType payload createdBy now) ∧
      GetArtifact (SaveArtifact s true name contentType payload createdBy now).2
        (artifactFor name contentType payload createdBy now).artifactID =
        .ok (artifactFor name contentType payload createdBy now)) ∧
    (∀ existing, lookupA s.state.artifacts
        (artifactFor name contentType payload createdBy now).artifactID = some existing →
      ∀ pOk2 name2 contentType2 createdBy2 now2,
        SaveArtifact s pOk2 name2 contentType2 payload createdBy2 now2 =
          (.ok existing, s)) ∧
    (lookupA s.state.artifacts (artifactFor name contentType payload createdBy now).artifactID
        = none →
      ∀ pOk2 name2 contentType2 createdBy2 now2,
        SaveArtifact ((SaveArtifact s true name contentType payload createdBy now).2)
          pOk2 name2 contentType2 payload createdBy2 now2 =
          (.ok (artifactFor name contentType payload createdBy now),
            (SaveArtifact s true name contentType payload createdBy now).2)) := by
  have hsave : ∀ hfresh : lookupA s.state.artifacts
      (artifactFor name contentType payload createdBy now).artifactID = none,
      SaveArtifact s true name contentType payload createdBy now =
        (.ok (artifactFor name contentType payload createdBy now),
          { s with
            state := savedArtifactState s (artifactFor name contentType payload createdBy now)
            snapshot := some (savedArtifactState s (artifactFor name contentType payload createdBy now)) }) := by
    intro hfresh
    unfold SaveArtifact
    simp only []
    rw [hfresh]
    rfl
  refine ⟨rfl, rfl, ?_, ?_, ?_⟩
  · intro hfresh
    have hlk : lookupA ((SaveArtifact s true name contentType payload createdBy
          now).2).state.artifacts
        (artifactFor name contentType payload createdBy now).artifactID =
        some (artifactFor name contentType payload createdBy now) := by
      rw [hsave hfresh]
      exact lookupA_insertA_self _ _ _
    refine ⟨by rw [hsave hfresh], hlk, getArtifact_eval _ _ _ hlk⟩
  · intro existing hsome pOk2 name2 contentType2 createdBy2 now2
    exact saveArtifact_dedup s pOk2 name2 contentType2 payload createdBy2 now2 existing hsome
  · intro hfresh pOk2 name2 contentType2 createdBy2 now2
    refine saveArtifact_dedup _ pOk2 name2 contentType2 payload createdBy2 now2 _ ?_
    rw [hsave hfresh]
    exact lookupA_insertA_self _ _ _

set_option maxRecDepth 8192 in
/-- C5 witness: uploading the one-byte payload `0` to the empty artifact
store yields the id `art_` + the first 24 hex digits of its SHA-256, reading
the id back returns the record with that byte, and a second upload of the
same byte under a different name and content type returns the stored record
and changes nothing. -/
theorem saveArtifact_content_addressed_witness :
    lookupA testStore.state.artifacts
      (artifactFor "fw.bin" "application/octet-stream" [0] "operator" 7).artifactID = none ∧
    (artifactFor "fw.bin" "application/octet-stream" [0] "operator" 7).artifactID =
      "art_6e340b9cffb37a989ca544e6" ∧
    (artifactFor "fw.bin" "application/octet-stream" [0] "operator" 7).payload = [0] ∧
    (SaveArtifact testStore true "fw.bin" "application/octet-stream" [0] "operator" 7).1 =
      .ok (artifactFor "fw.bin" "application/octet-stream" [0] "operator" 7) ∧
    GetArtifact (SaveArtifact testStore true "fw.bin" "application/octet-stream" [0]
        "operator" 7).2
      (artifactFor "fw.bin" "application/octet-stream" [0] "operator" 7).artifactID =
      .ok (artifactFor "fw.bin" "application/octet-stream" [0] "operator" 7) ∧
    SaveArtifact (SaveArtifact testStore true "fw.bin" "application/octet-stream" [0]
        "operator" 7).2 true "other.bin" "text/plain" [0] "operator" 9 =
      (.ok (artifactFor "fw.bin" "application/octet-stream" [0] "operator" 7),
        (SaveArtifact testStore true "fw.bin" "application/octet-stream" [0] "operator" 7).2) := by
  obtain ⟨-, hpay, hfresh, -, hsecond⟩ := saveArtifact_content_addressed testStore
    "fw.bin" "application/octet-stream" [0] "operator" 7
  obtain ⟨h1, -, h3⟩ := hfresh rfl
  exact ⟨rfl, by decide, hpay, h1, h3, hsecond rfl true "other.bin" "text/plain" "operator" 9⟩

end LteSwd
